import Mathlib

/-!
# TaskPal chat room: the client of the booking negotiation and messaging subsystem

A shallow embedding of `frontend/src/pages/components/ChatRoom.jsx`.

* Part 1 models the JavaScript values and built-ins the component relies on
  (`Number`, `String`, `parseInt`, `isNaN`, `!`, `&&`, `||`, `===`, `trim`,
  `toLowerCase`, `Array.prototype.includes`).
* Part 2 models the component: its state, the socket handlers, `sendMessage`,
  `handleUpdatePrice`, `handleAgree`, the two inline click handlers of the
  negotiation section, the render guards of that section, and the socket
  effect with React's run and cleanup discipline and the listener table of
  the shared socket.
* Part 3 states and proves the properties.

A number is written as a decimal `m * 10 ^ e` (or is `NaN` or an infinity) and
stands for the IEEE double nearest to that decimal: the parsers round their
result, and every operation on numbers rounds its arguments first. The sign of
zero is not kept (no operation of the component tells `-0` from `0`). Strings
are sequences of Unicode code points; `toLowerCase` follows the Unicode 14.0
case mappings, the final sigma rule included.
Asynchronous handlers are run to completion against the outcome of their one
HTTP request; effects are recorded in program order.
-/

namespace TaskPal

/-! ## Part 1: JavaScript values -/

/-- A JavaScript number: `fin m e` stands for the double nearest to the decimal
`m * 10 ^ e` (see `JSNum.toDouble`). -/
inductive JSNum where
  | nan
  | posInf
  | negInf
  | fin (m : Int) (e : Int)
  deriving DecidableEq, Repr

/-- A primitive JavaScript value. -/
inductive JSVal where
  | undefined
  | null
  | bool (b : Bool)
  | num (n : JSNum)
  | str (s : String)
  deriving DecidableEq, Repr

/-- A flat object: its own properties in insertion order. -/
abbrev JSObj := List (String × JSVal)

/-- A value held in component state or carried by an event: a primitive or a flat object. -/
inductive Value where
  | prim (v : JSVal)
  | obj (o : JSObj)
  deriving DecidableEq, Repr

namespace JSNum

/-- The number zero. -/
def zero : JSNum := fin 0 0

/-- An integer as a number. -/
def ofInt (z : Int) : JSNum := fin z 0

/-- Mantissas of two decimals brought to the smaller of the two exponents. -/
def align (m1 e1 m2 e2 : Int) : Int × Int :=
  let e0 := min e1 e2
  (m1 * 10 ^ (e1 - e0).toNat, m2 * 10 ^ (e2 - e0).toNat)

/-- Equality of two doubles: `NaN` equals nothing, itself included. -/
def eqExact : JSNum → JSNum → Bool
  | nan, _ => false
  | _, nan => false
  | posInf, posInf => true
  | negInf, negInf => true
  | fin m1 e1, fin m2 e2 => (align m1 e1 m2 e2).1 == (align m1 e1 m2 e2).2
  | _, _ => false

/-- The order `<=` of two doubles: false as soon as one side is `NaN`. -/
def leExact : JSNum → JSNum → Bool
  | nan, _ => false
  | _, nan => false
  | negInf, _ => true
  | _, posInf => true
  | posInf, _ => false
  | _, negInf => false
  | fin m1 e1, fin m2 e2 => decide ((align m1 e1 m2 e2).1 ≤ (align m1 e1 m2 e2).2)

/-- The order `<` of two doubles: false as soon as one side is `NaN`. -/
def ltExact : JSNum → JSNum → Bool
  | nan, _ => false
  | _, nan => false
  | posInf, _ => false
  | _, negInf => false
  | negInf, _ => true
  | _, posInf => true
  | fin m1 e1, fin m2 e2 => decide ((align m1 e1 m2 e2).1 < (align m1 e1 m2 e2).2)

/-- The least `j` with `lo ≤ j < hi` and `n / d < 2 ^ (j - 1021)`, or `hi` when there is
none, by bisection. -/
def leastFit (n d : Nat) : Nat → Nat → Nat → Nat
  | 0, lo, _ => lo
  | fuel + 1, lo, hi =>
    if lo < hi then
      if n <<< 1021 < d <<< ((lo + hi) / 2) then leastFit n d fuel lo ((lo + hi) / 2)
      else leastFit n d fuel ((lo + hi) / 2 + 1) hi
    else lo

/-- The quotient `p / q` rounded to the nearest integer, a tie going to the even one. -/
def divRoundEven (p q : Nat) : Nat :=
  if 2 * (p % q) > q then p / q + 1
  else if 2 * (p % q) = q then p / q + (p / q) % 2
  else p / q

/-- The factors two taken out of `m`: the odd part and how many were taken. -/
def stripTwos : Nat → Nat → Nat → Nat × Nat
  | 0, m, t => (m, t)
  | fuel + 1, m, t => if m % 2 = 0 ∧ m ≠ 0 then stripTwos fuel (m / 2) (t + 1) else (m, t)

/-- The double `± m * 2 ^ q` written as a decimal: an integer with exponent 0, or an odd
multiple of a power of five with a negative exponent. -/
def ofBinary (negative : Bool) (m : Nat) (q : Int) : JSNum :=
  let sg : Int := if negative then -1 else 1
  if 0 ≤ q then fin (sg * ((m <<< q.toNat : Nat) : Int)) 0
  else fin (sg * ((m * 5 ^ (-q).toNat : Nat) : Int)) q

/-- The double nearest to `± n / d` (round to nearest, ties to even), for `n` and `d`
positive: the significand has 53 bits, the least exponent is `-1074`, and a result of
`2 ^ 1024` or more is infinite. -/
def nearestDouble (negative : Bool) (n d : Nat) : JSNum :=
  let j := leastFit n d 16 0 2046
  let m := divRoundEven (n <<< 1074) (d <<< j)
  if 2046 ≤ j ∨ (j = 2045 ∧ m = 2 ^ 53) then (if negative then negInf else posInf)
  else if m = 0 then fin 0 0
  else ofBinary negative (stripTwos 64 m 0).1 ((j : Int) + ((stripTwos 64 m 0).2 : Int) - 1074)

/-- The double a number stands for. -/
def toDouble : JSNum → JSNum
  | fin m e =>
    if m = 0 then fin 0 0
    else if 0 ≤ e then nearestDouble (decide (m < 0)) (m.natAbs * 10 ^ e.toNat) 1
    else nearestDouble (decide (m < 0)) m.natAbs (10 ^ (-e).toNat)
  | n => n

/-- The operator `===` on two numbers: `NaN` equals nothing, itself included. -/
def strictEq (a b : JSNum) : Bool := eqExact a.toDouble b.toDouble

/-- The operator `<=` on two numbers: false as soon as one side is `NaN`. -/
def le (a b : JSNum) : Bool := leExact a.toDouble b.toDouble

/-- The operator `<` on two numbers: false as soon as one side is `NaN`. -/
def lt (a b : JSNum) : Bool := ltExact a.toDouble b.toDouble

/-- Whether the number is `NaN`. -/
def isNaN : JSNum → Bool
  | nan => true
  | _ => false

/-- Whether a double is zero. -/
def zeroExact : JSNum → Bool
  | fin m _ => m == 0
  | _ => false

/-- Whether the number is `+0` or `-0`. -/
def isZero (n : JSNum) : Bool := zeroExact n.toDouble

end JSNum

/-! ### Strings -/

/-- The characters `trim` removes: WhiteSpace and LineTerminator of ECMAScript. -/
def isWhiteSpace (c : Char) : Bool :=
  let n := c.toNat
  n == 0x09 || n == 0x0A || n == 0x0B || n == 0x0C || n == 0x0D || n == 0x20 ||
  n == 0xA0 || n == 0x1680 || (0x2000 ≤ n && n ≤ 0x200A) ||
  n == 0x2028 || n == 0x2029 || n == 0x202F || n == 0x205F || n == 0x3000 || n == 0xFEFF

/-- Leading white space removed. -/
def trimStartChars (cs : List Char) : List Char := cs.dropWhile isWhiteSpace

/-- Leading and trailing white space removed. -/
def trimChars (cs : List Char) : List Char :=
  (trimStartChars (trimStartChars cs).reverse).reverse

/-- The method `String.prototype.trim`. -/
def trim (s : String) : String := String.mk (trimChars s.data)

/-- The simple lowercase mappings of Unicode 14.0: a code point `c` with `first ≤ c ≤ last`
and `(c - first) % step = 0` maps to `c + delta`; the entries are
`(first, last, step, delta)`. -/
def lowerRanges : List (Nat × Nat × Nat × Int) :=
  [(65, 90, 1, 32), (192, 214, 1, 32), (216, 222, 1, 32), (256, 302, 2, 1), (306, 310, 2, 1),
   (313, 327, 2, 1), (330, 374, 2, 1), (376, 376, 1, -121), (377, 381, 2, 1), (385, 385, 1, 210),
   (386, 388, 2, 1), (390, 390, 1, 206), (391, 391, 1, 1), (393, 394, 1, 205), (395, 395, 1, 1),
   (398, 398, 1, 79), (399, 399, 1, 202), (400, 400, 1, 203), (401, 401, 1, 1),
   (403, 403, 1, 205), (404, 404, 1, 207), (406, 406, 1, 211), (407, 407, 1, 209),
   (408, 408, 1, 1), (412, 412, 1, 211), (413, 413, 1, 213), (415, 415, 1, 214),
   (416, 420, 2, 1), (422, 422, 1, 218), (423, 423, 1, 1), (425, 425, 1, 218), (428, 428, 1, 1),
   (430, 430, 1, 218), (431, 431, 1, 1), (433, 434, 1, 217), (435, 437, 2, 1),
   (439, 439, 1, 219), (440, 440, 1, 1), (444, 444, 1, 1), (452, 452, 1, 2), (453, 453, 1, 1),
   (455, 455, 1, 2), (456, 456, 1, 1), (458, 458, 1, 2), (459, 475, 2, 1), (478, 494, 2, 1),
   (497, 497, 1, 2), (498, 500, 2, 1), (502, 502, 1, -97), (503, 503, 1, -56), (504, 542, 2, 1),
   (544, 544, 1, -130), (546, 562, 2, 1), (570, 570, 1, 10795), (571, 571, 1, 1),
   (573, 573, 1, -163), (574, 574, 1, 10792), (577, 577, 1, 1), (579, 579, 1, -195),
   (580, 580, 1, 69), (581, 581, 1, 71), (582, 590, 2, 1), (880, 882, 2, 1), (886, 886, 1, 1),
   (895, 895, 1, 116), (902, 902, 1, 38), (904, 906, 1, 37), (908, 908, 1, 64),
   (910, 911, 1, 63), (913, 929, 1, 32), (931, 939, 1, 32), (975, 975, 1, 8), (984, 1006, 2, 1),
   (1012, 1012, 1, -60), (1015, 1015, 1, 1), (1017, 1017, 1, -7), (1018, 1018, 1, 1),
   (1021, 1023, 1, -130), (1024, 1039, 1, 80), (1040, 1071, 1, 32), (1120, 1152, 2, 1),
   (1162, 1214, 2, 1), (1216, 1216, 1, 15), (1217, 1229, 2, 1), (1232, 1326, 2, 1),
   (1329, 1366, 1, 48), (4256, 4293, 1, 7264), (4295, 4295, 1, 7264), (4301, 4301, 1, 7264),
   (5024, 5103, 1, 38864), (5104, 5109, 1, 8), (7312, 7354, 1, -3008), (7357, 7359, 1, -3008),
   (7680, 7828, 2, 1), (7838, 7838, 1, -7615), (7840, 7934, 2, 1), (7944, 7951, 1, -8),
   (7960, 7965, 1, -8), (7976, 7983, 1, -8), (7992, 7999, 1, -8), (8008, 8013, 1, -8),
   (8025, 8031, 2, -8), (8040, 8047, 1, -8), (8072, 8079, 1, -8), (8088, 8095, 1, -8),
   (8104, 8111, 1, -8), (8120, 8121, 1, -8), (8122, 8123, 1, -74), (8124, 8124, 1, -9),
   (8136, 8139, 1, -86), (8140, 8140, 1, -9), (8152, 8153, 1, -8), (8154, 8155, 1, -100),
   (8168, 8169, 1, -8), (8170, 8171, 1, -112), (8172, 8172, 1, -7), (8184, 8185, 1, -128),
   (8186, 8187, 1, -126), (8188, 8188, 1, -9), (8486, 8486, 1, -7517), (8490, 8490, 1, -8383),
   (8491, 8491, 1, -8262), (8498, 8498, 1, 28), (8544, 8559, 1, 16), (8579, 8579, 1, 1),
   (9398, 9423, 1, 26), (11264, 11311, 1, 48), (11360, 11360, 1, 1), (11362, 11362, 1, -10743),
   (11363, 11363, 1, -3814), (11364, 11364, 1, -10727), (11367, 11371, 2, 1),
   (11373, 11373, 1, -10780), (11374, 11374, 1, -10749), (11375, 11375, 1, -10783),
   (11376, 11376, 1, -10782), (11378, 11378, 1, 1), (11381, 11381, 1, 1),
   (11390, 11391, 1, -10815), (11392, 11490, 2, 1), (11499, 11501, 2, 1), (11506, 11506, 1, 1),
   (42560, 42604, 2, 1), (42624, 42650, 2, 1), (42786, 42798, 2, 1), (42802, 42862, 2, 1),
   (42873, 42875, 2, 1), (42877, 42877, 1, -35332), (42878, 42886, 2, 1), (42891, 42891, 1, 1),
   (42893, 42893, 1, -42280), (42896, 42898, 2, 1), (42902, 42920, 2, 1),
   (42922, 42922, 1, -42308), (42923, 42923, 1, -42319), (42924, 42924, 1, -42315),
   (42925, 42925, 1, -42305), (42926, 42926, 1, -42308), (42928, 42928, 1, -42258),
   (42929, 42929, 1, -42282), (42930, 42930, 1, -42261), (42931, 42931, 1, 928),
   (42932, 42946, 2, 1), (42948, 42948, 1, -48), (42949, 42949, 1, -42307),
   (42950, 42950, 1, -35384), (42951, 42953, 2, 1), (42960, 42960, 1, 1), (42966, 42968, 2, 1),
   (42997, 42997, 1, 1), (65313, 65338, 1, 32), (66560, 66599, 1, 40), (66736, 66771, 1, 40),
   (66928, 66938, 1, 39), (66940, 66954, 1, 39), (66956, 66962, 1, 39), (66964, 66965, 1, 39),
   (68736, 68786, 1, 64), (71840, 71871, 1, 32), (93760, 93791, 1, 32), (125184, 125217, 1, 34)]

/-- The code points that are Cased and not Case_Ignorable (Unicode 14.0), as ranges. -/
def casedRanges : List (Nat × Nat) :=
  [(65, 90), (97, 122), (170, 170), (181, 181), (186, 186), (192, 214), (216, 246), (248, 442),
   (444, 447), (452, 659), (661, 687), (880, 883), (886, 887), (891, 893), (895, 895),
   (902, 902), (904, 906), (908, 908), (910, 929), (931, 1013), (1015, 1153), (1162, 1327),
   (1329, 1366), (1376, 1416), (4256, 4293), (4295, 4295), (4301, 4301), (4304, 4346),
   (4349, 4351), (5024, 5109), (5112, 5117), (7296, 7304), (7312, 7354), (7357, 7359),
   (7424, 7467), (7531, 7543), (7545, 7578), (7680, 7957), (7960, 7965), (7968, 8005),
   (8008, 8013), (8016, 8023), (8025, 8025), (8027, 8027), (8029, 8029), (8031, 8061),
   (8064, 8116), (8118, 8124), (8126, 8126), (8130, 8132), (8134, 8140), (8144, 8147),
   (8150, 8155), (8160, 8172), (8178, 8180), (8182, 8188), (8450, 8450), (8455, 8455),
   (8458, 8467), (8469, 8469), (8473, 8477), (8484, 8484), (8486, 8486), (8488, 8488),
   (8490, 8493), (8495, 8500), (8505, 8505), (8508, 8511), (8517, 8521), (8526, 8526),
   (8544, 8575), (8579, 8580), (9398, 9449), (11264, 11387), (11390, 11492), (11499, 11502),
   (11506, 11507), (11520, 11557), (11559, 11559), (11565, 11565), (42560, 42605),
   (42624, 42651), (42786, 42863), (42865, 42887), (42891, 42894), (42896, 42954),
   (42960, 42961), (42963, 42963), (42965, 42969), (42997, 42998), (43002, 43002),
   (43824, 43866), (43872, 43880), (43888, 43967), (64256, 64262), (64275, 64279),
   (65313, 65338), (65345, 65370), (66560, 66639), (66736, 66771), (66776, 66811),
   (66928, 66938), (66940, 66954), (66956, 66962), (66964, 66965), (66967, 66977),
   (66979, 66993), (66995, 67001), (67003, 67004), (68736, 68786), (68800, 68850),
   (71840, 71903), (93760, 93823), (119808, 119892), (119894, 119964), (119966, 119967),
   (119970, 119970), (119973, 119974), (119977, 119980), (119982, 119993), (119995, 119995),
   (119997, 120003), (120005, 120069), (120071, 120074), (120077, 120084), (120086, 120092),
   (120094, 120121), (120123, 120126), (120128, 120132), (120134, 120134), (120138, 120144),
   (120146, 120485), (120488, 120512), (120514, 120538), (120540, 120570), (120572, 120596),
   (120598, 120628), (120630, 120654), (120656, 120686), (120688, 120712), (120714, 120744),
   (120746, 120770), (120772, 120779), (122624, 122633), (122635, 122654), (125184, 125251),
   (127280, 127305), (127312, 127337), (127344, 127369)]

/-- The code points that are Case_Ignorable (Unicode 14.0), as ranges. -/
def caseIgnorableRanges : List (Nat × Nat) :=
  [(39, 39), (46, 46), (58, 58), (94, 94), (96, 96), (168, 168), (173, 173), (175, 175),
   (180, 180), (183, 184), (688, 879), (884, 885), (890, 890), (900, 901), (903, 903),
   (1155, 1161), (1369, 1369), (1375, 1375), (1425, 1469), (1471, 1471), (1473, 1474),
   (1476, 1477), (1479, 1479), (1524, 1524), (1536, 1541), (1552, 1562), (1564, 1564),
   (1600, 1600), (1611, 1631), (1648, 1648), (1750, 1757), (1759, 1768), (1770, 1773),
   (1807, 1807), (1809, 1809), (1840, 1866), (1958, 1968), (2027, 2037), (2042, 2042),
   (2045, 2045), (2070, 2093), (2137, 2139), (2184, 2184), (2192, 2193), (2200, 2207),
   (2249, 2306), (2362, 2362), (2364, 2364), (2369, 2376), (2381, 2381), (2385, 2391),
   (2402, 2403), (2417, 2417), (2433, 2433), (2492, 2492), (2497, 2500), (2509, 2509),
   (2530, 2531), (2558, 2558), (2561, 2562), (2620, 2620), (2625, 2626), (2631, 2632),
   (2635, 2637), (2641, 2641), (2672, 2673), (2677, 2677), (2689, 2690), (2748, 2748),
   (2753, 2757), (2759, 2760), (2765, 2765), (2786, 2787), (2810, 2815), (2817, 2817),
   (2876, 2876), (2879, 2879), (2881, 2884), (2893, 2893), (2901, 2902), (2914, 2915),
   (2946, 2946), (3008, 3008), (3021, 3021), (3072, 3072), (3076, 3076), (3132, 3132),
   (3134, 3136), (3142, 3144), (3146, 3149), (3157, 3158), (3170, 3171), (3201, 3201),
   (3260, 3260), (3263, 3263), (3270, 3270), (3276, 3277), (3298, 3299), (3328, 3329),
   (3387, 3388), (3393, 3396), (3405, 3405), (3426, 3427), (3457, 3457), (3530, 3530),
   (3538, 3540), (3542, 3542), (3633, 3633), (3636, 3642), (3654, 3662), (3761, 3761),
   (3764, 3772), (3782, 3782), (3784, 3789), (3864, 3865), (3893, 3893), (3895, 3895),
   (3897, 3897), (3953, 3966), (3968, 3972), (3974, 3975), (3981, 3991), (3993, 4028),
   (4038, 4038), (4141, 4144), (4146, 4151), (4153, 4154), (4157, 4158), (4184, 4185),
   (4190, 4192), (4209, 4212), (4226, 4226), (4229, 4230), (4237, 4237), (4253, 4253),
   (4348, 4348), (4957, 4959), (5906, 5908), (5938, 5939), (5970, 5971), (6002, 6003),
   (6068, 6069), (6071, 6077), (6086, 6086), (6089, 6099), (6103, 6103), (6109, 6109),
   (6155, 6159), (6211, 6211), (6277, 6278), (6313, 6313), (6432, 6434), (6439, 6440),
   (6450, 6450), (6457, 6459), (6679, 6680), (6683, 6683), (6742, 6742), (6744, 6750),
   (6752, 6752), (6754, 6754), (6757, 6764), (6771, 6780), (6783, 6783), (6823, 6823),
   (6832, 6862), (6912, 6915), (6964, 6964), (6966, 6970), (6972, 6972), (6978, 6978),
   (7019, 7027), (7040, 7041), (7074, 7077), (7080, 7081), (7083, 7085), (7142, 7142),
   (7144, 7145), (7149, 7149), (7151, 7153), (7212, 7219), (7222, 7223), (7288, 7293),
   (7376, 7378), (7380, 7392), (7394, 7400), (7405, 7405), (7412, 7412), (7416, 7417),
   (7468, 7530), (7544, 7544), (7579, 7679), (8125, 8125), (8127, 8129), (8141, 8143),
   (8157, 8159), (8173, 8175), (8189, 8190), (8203, 8207), (8216, 8217), (8228, 8228),
   (8231, 8231), (8234, 8238), (8288, 8292), (8294, 8303), (8305, 8305), (8319, 8319),
   (8336, 8348), (8400, 8432), (11388, 11389), (11503, 11505), (11631, 11631), (11647, 11647),
   (11744, 11775), (11823, 11823), (12293, 12293), (12330, 12333), (12337, 12341),
   (12347, 12347), (12441, 12446), (12540, 12542), (40981, 40981), (42232, 42237),
   (42508, 42508), (42607, 42610), (42612, 42621), (42623, 42623), (42652, 42655),
   (42736, 42737), (42752, 42785), (42864, 42864), (42888, 42890), (42994, 42996),
   (43000, 43001), (43010, 43010), (43014, 43014), (43019, 43019), (43045, 43046),
   (43052, 43052), (43204, 43205), (43232, 43249), (43263, 43263), (43302, 43309),
   (43335, 43345), (43392, 43394), (43443, 43443), (43446, 43449), (43452, 43453),
   (43471, 43471), (43493, 43494), (43561, 43566), (43569, 43570), (43573, 43574),
   (43587, 43587), (43596, 43596), (43632, 43632), (43644, 43644), (43696, 43696),
   (43698, 43700), (43703, 43704), (43710, 43711), (43713, 43713), (43741, 43741),
   (43756, 43757), (43763, 43764), (43766, 43766), (43867, 43871), (43881, 43883),
   (44005, 44005), (44008, 44008), (44013, 44013), (64286, 64286), (64434, 64450),
   (65024, 65039), (65043, 65043), (65056, 65071), (65106, 65106), (65109, 65109),
   (65279, 65279), (65287, 65287), (65294, 65294), (65306, 65306), (65342, 65342),
   (65344, 65344), (65392, 65392), (65438, 65439), (65507, 65507), (65529, 65531),
   (66045, 66045), (66272, 66272), (66422, 66426), (67456, 67461), (67463, 67504),
   (67506, 67514), (68097, 68099), (68101, 68102), (68108, 68111), (68152, 68154),
   (68159, 68159), (68325, 68326), (68900, 68903), (69291, 69292), (69446, 69456),
   (69506, 69509), (69633, 69633), (69688, 69702), (69744, 69744), (69747, 69748),
   (69759, 69761), (69811, 69814), (69817, 69818), (69821, 69821), (69826, 69826),
   (69837, 69837), (69888, 69890), (69927, 69931), (69933, 69940), (70003, 70003),
   (70016, 70017), (70070, 70078), (70089, 70092), (70095, 70095), (70191, 70193),
   (70196, 70196), (70198, 70199), (70206, 70206), (70367, 70367), (70371, 70378),
   (70400, 70401), (70459, 70460), (70464, 70464), (70502, 70508), (70512, 70516),
   (70712, 70719), (70722, 70724), (70726, 70726), (70750, 70750), (70835, 70840),
   (70842, 70842), (70847, 70848), (70850, 70851), (71090, 71093), (71100, 71101),
   (71103, 71104), (71132, 71133), (71219, 71226), (71229, 71229), (71231, 71232),
   (71339, 71339), (71341, 71341), (71344, 71349), (71351, 71351), (71453, 71455),
   (71458, 71461), (71463, 71467), (71727, 71735), (71737, 71738), (71995, 71996),
   (71998, 71998), (72003, 72003), (72148, 72151), (72154, 72155), (72160, 72160),
   (72193, 72202), (72243, 72248), (72251, 72254), (72263, 72263), (72273, 72278),
   (72281, 72283), (72330, 72342), (72344, 72345), (72752, 72758), (72760, 72765),
   (72767, 72767), (72850, 72871), (72874, 72880), (72882, 72883), (72885, 72886),
   (73009, 73014), (73018, 73018), (73020, 73021), (73023, 73029), (73031, 73031),
   (73104, 73105), (73109, 73109), (73111, 73111), (73459, 73460), (78896, 78904),
   (92912, 92916), (92976, 92982), (92992, 92995), (94031, 94031), (94095, 94111),
   (94176, 94177), (94179, 94180), (110576, 110579), (110581, 110587), (110589, 110590),
   (113821, 113822), (113824, 113827), (118528, 118573), (118576, 118598), (119143, 119145),
   (119155, 119170), (119173, 119179), (119210, 119213), (119362, 119364), (121344, 121398),
   (121403, 121452), (121461, 121461), (121476, 121476), (121499, 121503), (121505, 121519),
   (122880, 122886), (122888, 122904), (122907, 122913), (122915, 122916), (122918, 122922),
   (123184, 123197), (123566, 123566), (123628, 123631), (125136, 125142), (125252, 125259),
   (127995, 127999), (917505, 917505), (917536, 917631), (917760, 917999)]

/-- Whether a code point lies in one of the ranges. -/
def inRanges (rs : List (Nat × Nat)) (n : Nat) : Bool :=
  rs.any (fun r => decide (r.1 ≤ n) && decide (n ≤ r.2))

/-- The lowercase of one code point by the simple mappings. -/
def simpleLower (c : Char) : Char :=
  match lowerRanges.find? (fun r =>
      decide (r.1 ≤ c.toNat) && decide (c.toNat ≤ r.2.1) && (c.toNat - r.1) % r.2.2.1 == 0) with
  | some r => Char.ofNat ((c.toNat : Int) + r.2.2.2).toNat
  | none => c

/-- Whether the first character that is not case-ignorable is a cased letter. -/
def casedAhead : List Char → Bool
  | [] => false
  | c :: cs =>
    if inRanges caseIgnorableRanges c.toNat then casedAhead cs
    else inRanges casedRanges c.toNat

/-- The lowercase of the characters `cs`; `before` holds the characters that precede them,
nearest first. `U+0130` becomes `i` and `U+0307`; a capital sigma that follows a cased
letter and is not followed by one becomes the final sigma `U+03C2`. -/
def lowerChars : List Char → List Char → List Char
  | _, [] => []
  | before, c :: rest =>
    (if c.toNat = 0x130 then [Char.ofNat 0x69, Char.ofNat 0x307]
     else if c.toNat = 0x3A3 then
       (if casedAhead before && !casedAhead rest then [Char.ofNat 0x3C2] else [Char.ofNat 0x3C3])
     else [simpleLower c]) ++ lowerChars (c :: before) rest

/-- The method `String.prototype.toLowerCase`: the locale-independent full lowercase
mapping of Unicode. -/
def toLowerCase (s : String) : String := String.mk (lowerChars [] s.data)

/-! ### Number to string -/

/-- The decimal digits of a natural number. -/
def natDigits (n : Nat) : List Char := Nat.toDigits 10 n

/-- A digit list without its trailing zeros. -/
def stripTrailingZeros (ds : List Char) : List Char :=
  (ds.reverse.dropWhile (fun c => c == '0')).reverse

/-- The layout of `Number::toString` in radix 10 for the digits of a positive decimal
`m * 10 ^ e`: plain, with a decimal point, or with an exponent. -/
def positiveToString (m : Nat) (e : Int) : String :=
  let ds := natDigits m
  let s := stripTrailingZeros ds
  let k : Int := s.length
  let n : Int := k + (e + ((ds.length : Int) - k))
  if k ≤ n ∧ n ≤ 21 then
    String.mk (s ++ List.replicate (n - k).toNat '0')
  else if 0 < n ∧ n ≤ 21 then
    String.mk (s.take n.toNat ++ '.' :: s.drop n.toNat)
  else if -6 < n ∧ n ≤ 0 then
    String.mk ('0' :: '.' :: List.replicate (-n).toNat '0' ++ s)
  else
    let ex := n - 1
    let sign := if ex < 0 then '-' else '+'
    let tail := 'e' :: sign :: natDigits ex.natAbs
    match s with
    | [] => String.mk tail
    | [d] => String.mk (d :: tail)
    | d :: rest => String.mk (d :: '.' :: rest ++ tail)

/-- The shortest decimal that stands for the positive double `mv * 10 ^ ev`. For each
number of digits `k`, from `k` on, the two decimals of `k` digits around the value are tried,
the nearer first (the even one on a tie); `n` is the number of digits of the value before the
decimal point. -/
def shortestFrom (mv : Nat) (ev : Int) (n : Int) : Nat → Nat → Nat × Int
  | 0, _ => (mv, ev)
  | fuel + 1, k =>
    if n - k ≤ ev then (mv * 10 ^ (ev - (n - k)).toNat, n - k)
    else
      let d := 10 ^ ((n - k) - ev).toNat
      let lo := mv / d
      let nearLo : Bool := decide (2 * (mv % d) < d ∨ (2 * (mv % d) = d ∧ lo % 2 = 0))
      let c1 := if nearLo then lo else lo + 1
      let c2 := if nearLo then lo + 1 else lo
      if JSNum.eqExact (JSNum.fin c1 (n - k)).toDouble (.fin mv ev) then (c1, n - k)
      else if JSNum.eqExact (JSNum.fin c2 (n - k)).toDouble (.fin mv ev) then (c2, n - k)
      else shortestFrom mv ev n fuel (k + 1)

/-- The digits `Number::toString` prints for a positive double: as few as tell it from its
neighbours (17 always do). -/
def shortest (mv : Nat) (ev : Int) : Nat × Int :=
  shortestFrom mv ev (((natDigits mv).length : Int) + ev) 17 1

/-- The operation `Number::toString` in radix 10. -/
def JSNum.toJSString (n : JSNum) : String :=
  match n.toDouble with
  | .nan => "NaN"
  | .posInf => "Infinity"
  | .negInf => "-Infinity"
  | .fin m e =>
    if m = 0 then "0"
    else if m < 0 then "-" ++ positiveToString (shortest m.natAbs e).1 (shortest m.natAbs e).2
    else positiveToString (shortest m.natAbs e).1 (shortest m.natAbs e).2

/-- The abstract operation `ToString` (what `String(v)` and a template literal apply). -/
def toJSString : JSVal → String
  | .undefined => "undefined"
  | .null => "null"
  | .bool true => "true"
  | .bool false => "false"
  | .num n => n.toJSString
  | .str s => s

/-! ### String to number -/

/-- The value of a character as a digit of the given radix. -/
def digitVal (radix : Nat) (c : Char) : Option Nat :=
  let n := c.toNat
  let v :=
    if 48 ≤ n ∧ n ≤ 57 then some (n - 48)
    else if 97 ≤ n ∧ n ≤ 122 then some (n - 97 + 10)
    else if 65 ≤ n ∧ n ≤ 90 then some (n - 65 + 10)
    else none
  match v with
  | some d => if d < radix then some d else none
  | none => none

/-- The longest prefix of digits of the given radix, as digit values, and the rest. -/
def takeDigits (radix : Nat) : List Char → List Nat × List Char
  | [] => ([], [])
  | c :: cs =>
    match digitVal radix c with
    | some d => (d :: (takeDigits radix cs).1, (takeDigits radix cs).2)
    | none => ([], c :: cs)

/-- The number a digit list denotes in the given radix. -/
def digitsValue (radix : Nat) (ds : List Nat) : Nat :=
  ds.foldl (fun acc d => acc * radix + d) 0

/-- An optional sign: the factor it stands for and the rest. -/
def takeSign : List Char → Int × List Char
  | '-' :: cs => (-1, cs)
  | '+' :: cs => (1, cs)
  | cs => (1, cs)

/-- The digits after the `e` of an ExponentPart: an optional sign and at least one digit,
up to the end of the input. -/
def parseExponent (cs : List Char) : Option Int :=
  let (sg, r) := takeSign cs
  let (ds, rest) := takeDigits 10 r
  if ds ≠ [] ∧ rest = [] then some (sg * (digitsValue 10 ds : Int)) else none

/-- What may follow the digits of a decimal literal: nothing, or an ExponentPart. -/
def finishDecimal (ds : List Nat) (e : Int) : List Char → Option (Nat × Int)
  | [] => some (digitsValue 10 ds, e)
  | c :: cs =>
    if c = 'e' ∨ c = 'E' then
      match parseExponent cs with
      | some x => some (digitsValue 10 ds, e + x)
      | none => none
    else none

/-- StrUnsignedDecimalLiteral without `Infinity`: mantissa and decimal exponent. -/
def parseUnsignedDecimal (cs : List Char) : Option (Nat × Int) :=
  let (ip, r1) := takeDigits 10 cs
  match r1 with
  | '.' :: t =>
    let (fp, r2) := takeDigits 10 t
    if ip = [] ∧ fp = [] then none else finishDecimal (ip ++ fp) (-(fp.length : Int)) r2
  | _ => if ip = [] then none else finishDecimal ip 0 r1

/-- A whole string of digits of the given radix, at least one. -/
def parseRadixInteger (radix : Nat) (cs : List Char) : JSNum :=
  let (ds, rest) := takeDigits radix cs
  if ds ≠ [] ∧ rest = [] then (JSNum.fin (digitsValue radix ds) 0).toDouble else .nan

/-- StrDecimalLiteral: an optional sign, then `Infinity` or an unsigned decimal literal. -/
def parseSignedDecimal (cs : List Char) : JSNum :=
  let (sg, r) := takeSign cs
  if r = "Infinity".data then (if sg < 0 then .negInf else .posInf)
  else
    match parseUnsignedDecimal r with
    | some (m, e) => (JSNum.fin (sg * (m : Int)) e).toDouble
    | none => .nan

/-- The operation `StringToNumber`: white space is trimmed, the empty string is `0`,
anything that is not a numeric literal is `NaN`, and the value of a literal is rounded to
the nearest double. -/
def stringToNumber (s : String) : JSNum :=
  match trimChars s.data with
  | [] => .zero
  | '0' :: 'x' :: cs => parseRadixInteger 16 cs
  | '0' :: 'X' :: cs => parseRadixInteger 16 cs
  | '0' :: 'o' :: cs => parseRadixInteger 8 cs
  | '0' :: 'O' :: cs => parseRadixInteger 8 cs
  | '0' :: 'b' :: cs => parseRadixInteger 2 cs
  | '0' :: 'B' :: cs => parseRadixInteger 2 cs
  | cs => parseSignedDecimal cs

/-- The abstract operation `ToNumber` (what `Number(v)` and `isNaN(v)` apply). -/
def toNumber : JSVal → JSNum
  | .undefined => .nan
  | .null => .zero
  | .bool true => .ofInt 1
  | .bool false => .zero
  | .num n => n
  | .str s => stringToNumber s

/-- The global function `isNaN`. -/
def jsIsNaN (v : JSVal) : Bool := (toNumber v).isNaN

/-- The abstract operation `ToBoolean`: what `!v`, `a && b` and `a || b` test. -/
def truthy : JSVal → Bool
  | .undefined => false
  | .null => false
  | .bool b => b
  | .num n => !(n.isNaN || n.isZero)
  | .str s => s ≠ ""

/-- The operator `a && b`. -/
def jsAnd (a b : JSVal) : JSVal := if truthy a then b else a

/-- The operator `a || b`. -/
def jsOr (a b : JSVal) : JSVal := if truthy a then a else b

/-- The operator `===` on primitives. -/
def strictEq : JSVal → JSVal → Bool
  | .undefined, .undefined => true
  | .null, .null => true
  | .bool a, .bool b => a == b
  | .num a, .num b => a.strictEq b
  | .str a, .str b => a == b
  | _, _ => false

/-- The comparison SameValueZero, used by `includes`: as `===`, but `NaN` equals `NaN`. -/
def sameValueZero (a b : JSVal) : Bool :=
  match a, b with
  | .num .nan, .num .nan => true
  | _, _ => strictEq a b

/-- The method `Array.prototype.includes` on an array of primitives. -/
def includes (xs : List JSVal) (v : JSVal) : Bool := xs.any (fun x => sameValueZero x v)

/-- The global function `parseInt` with no radix argument: the argument is converted to a
string, leading white space and a sign are skipped, a `0x` prefix selects radix 16, then the
longest run of digits is read; no digit at all gives `NaN`, and the integer read is rounded
to the nearest double. -/
def parseInt (v : JSVal) : JSNum :=
  let (sg, r) := takeSign (trimStartChars (toJSString v).data)
  let (radix, body) : Nat × List Char :=
    match r with
    | '0' :: 'x' :: cs => (16, cs)
    | '0' :: 'X' :: cs => (16, cs)
    | cs => (10, cs)
  let ds := (takeDigits radix body).1
  if ds = [] then .nan else (JSNum.fin (sg * (digitsValue radix ds : Int)) 0).toDouble

/-- Property read `o.k`: `undefined` when the object has no such property. -/
def JSObj.get (o : JSObj) (k : String) : JSVal :=
  match o with
  | [] => .undefined
  | (k', v) :: rest => if k' = k then v else JSObj.get rest k

/-- The object `{...o, k: v}`: an existing property keeps its place and takes the new value,
a new one is added last. -/
def JSObj.set (o : JSObj) (k : String) (v : JSVal) : JSObj :=
  match o with
  | [] => [(k, v)]
  | (k', v') :: rest => if k' = k then (k, v) :: rest else (k', v') :: JSObj.set rest k v

/-- Property read `v.k` for the property names the component uses (none of them exists on a
primitive): `none` stands for the TypeError thrown on `null` and `undefined`. -/
def Value.prop (v : Value) (k : String) : Option JSVal :=
  match v with
  | .obj o => some (o.get k)
  | .prim .undefined => none
  | .prim .null => none
  | .prim _ => some .undefined

/-- The abstract operation `ToBoolean` on a state value: every object is truthy. -/
def Value.truthy : Value → Bool
  | .obj _ => true
  | .prim v => TaskPal.truthy v

/-- The own enumerable properties an object spread `{...v}` copies: those of an object,
the indexed characters of a string, none for the other primitives. -/
def Value.spread : Value → JSObj
  | .obj o => o
  | .prim (.str s) => s.data.enum.map (fun ic => (toString ic.1, JSVal.str (String.singleton ic.2)))
  | .prim _ => []

/-! ## Part 2: the `ChatRoom` component -/

/-- The browser's `localStorage`: the stored string of a key, if any. -/
abbrev Storage := String → Option String

/-- The call `localStorage.getItem(k)`: the stored string, or `null`. -/
def getItem (st : Storage) (k : String) : JSVal :=
  match st k with
  | some v => .str v
  | none => .null

/-- What a render of the component closes over besides its state: the route parameter
`bookingId`, `role` and `token`. -/
structure Props where
  bookingId : JSVal
  role : JSVal
  token : JSVal
  deriving DecidableEq, Repr

/-- The state of the component (`useState` cells the handlers read or write). -/
structure ChatState where
  userId : JSNum
  message : String
  messages : List JSObj
  bookingDetails : Value
  loading : Bool
  deriving DecidableEq, Repr

/-- The constant `storedUserId`: the provider id for a provider, else the user id. -/
def storedUserId (st : Storage) : JSNum :=
  if strictEq (getItem st "userRole") (.str "provider") then parseInt (getItem st "providerId")
  else parseInt (getItem st "userId")

/-- The props a render takes from the route and from `localStorage`. -/
def propsOf (st : Storage) (bookingId : JSVal) : Props :=
  { bookingId := bookingId, role := getItem st "userRole", token := getItem st "authToken" }

/-- The state of the first render. -/
def initialState (st : Storage) : ChatState :=
  { userId := storedUserId st, message := "", messages := [],
    bookingDetails := .prim .null, loading := true }

/-- What a handler does to the outside world, in program order. -/
inductive Effect where
  | alert (text : String)
  | prompt (text : String) (defaultText : JSVal)
  | consoleError (label : String)
  | put (url : String) (body : JSObj) (authorization : String)
  | emit (event : String) (payload : Value)
  | uncaughtTypeError
  deriving DecidableEq, Repr

/-- How the one `api.put` of a handler ends: the promise rejects (or the response has no
`data`), or it resolves and `res.data.booking` is the given value. -/
inductive PutOutcome where
  | rejected
  | resolved (booking : Value)
  deriving DecidableEq, Repr

/-- The payload of `load_messages`: an array of messages, or nothing. -/
inductive History where
  | undefined
  | null
  | array (ms : List JSObj)
  deriving DecidableEq, Repr

/-- The header `Authorization` of `axiosConfig`. -/
def authorization (p : Props) : String := "Bearer " ++ toJSString p.token

/-- The word a message uses for the acting party: `role === "user" ? "Client" : "Provider"`. -/
def partyName (role : JSVal) : String :=
  if strictEq role (.str "user") then "Client" else "Provider"

/-- The handler of `load_messages`: `setMessages(history || [])`. -/
def onLoadMessages (history : History) (s : ChatState) : ChatState :=
  match history with
  | .array ms => { s with messages := ms }
  | .undefined => { s with messages := [] }
  | .null => { s with messages := [] }

/-- The echo test of the `receive_message` handler. -/
def isEcho (p : Props) (userId : JSNum) (data : JSObj) : Bool :=
  (toNumber (data.get "sender_id")).strictEq userId &&
  (toLowerCase (toJSString (data.get "sender_role")) == toLowerCase (toJSString p.role))

/-- The handler of `receive_message`: an echo is dropped, anything else is appended. -/
def onReceiveMessage (p : Props) (data : JSObj) (s : ChatState) : ChatState :=
  if isEcho p s.userId data then s
  else { s with messages := s.messages ++ [data] }

/-- The handler of `booking_updated`: `setBookingDetails(updatedBooking)`. -/
def onBookingUpdated (updatedBooking : Value) (s : ChatState) : ChatState :=
  { s with bookingDetails := updatedBooking }

/-- The object `newMessage` built by `sendMessage`. -/
def newMessage (p : Props) (now : String) (s : ChatState) : JSObj :=
  [("bookingId", .num (parseInt p.bookingId)),
   ("sender_id", .num s.userId),
   ("sender_role", p.role),
   ("message", .str s.message),
   ("timestamp", .str now)]

/-- The function `sendMessage`; `now` is `new Date().toISOString()`. -/
def sendMessage (p : Props) (now : String) (s : ChatState) : ChatState × List Effect :=
  if !truthy (.str (trim s.message)) then (s, [])
  else
    ({ s with messages := s.messages ++ [newMessage p now s], message := "" },
     [.emit "send_message" (.obj (newMessage p now s))])

/-- A chat message announcing an action, as the negotiation handlers build it: `bookingId`
is the route parameter itself. -/
def noticeMessage (p : Props) (now : String) (userId : JSNum) (text : String) : JSObj :=
  [("bookingId", p.bookingId),
   ("sender_id", .num userId),
   ("sender_role", p.role),
   ("message", .str text),
   ("timestamp", .str now)]

/-- The request `api.put("/bookings/:id/price", { price }, axiosConfig)`. -/
def putPrice (p : Props) (newPrice : JSVal) : Effect :=
  .put ("/bookings/" ++ toJSString p.bookingId ++ "/price") [("price", newPrice)] (authorization p)

/-- The request `api.put("/bookings/:id/agree", { role }, axiosConfig)`. -/
def putAgree (p : Props) : Effect :=
  .put ("/bookings/" ++ toJSString p.bookingId ++ "/agree") [("role", p.role)] (authorization p)

/-- The function `handleUpdatePrice`. `promptReply` is what the user answers to `prompt`
given the default text (`none` when the dialog is cancelled). -/
def handleUpdatePrice (p : Props) (promptReply : JSVal → Option String) (now : String)
    (out : PutOutcome) (s : ChatState) : ChatState × List Effect :=
  match s.bookingDetails.prop "price" with
  | none => (s, [.consoleError "Error updating price:"])
  | some price =>
    let shown := jsOr price (.str "")
    let newPrice : JSVal :=
      match promptReply shown with
      | some t => .str t
      | none => .null
    let asked := Effect.prompt "Enter a new price:" shown
    if !truthy newPrice || jsIsNaN newPrice then (s, [asked, .alert "Invalid price."])
    else
      match out with
      | .rejected => (s, [asked, putPrice p newPrice, .consoleError "Error updating price:"])
      | .resolved booking =>
        ({ s with bookingDetails := booking },
         [asked, putPrice p newPrice,
          .emit "send_message" (.obj (noticeMessage p now s.userId
            ("💬 Provider proposed a new price: $" ++ toJSString newPrice)))])

/-- The function `handleAgree`. -/
def handleAgree (p : Props) (now : String) (out : PutOutcome) (s : ChatState) :
    ChatState × List Effect :=
  match out with
  | .rejected => (s, [putAgree p, .consoleError "Error agreeing to price:"])
  | .resolved booking =>
    ({ s with bookingDetails := booking },
     [putAgree p,
      .emit "send_message" (.obj (noticeMessage p now s.userId
        ("✅ " ++ partyName p.role ++ " agreed to the price.")))])

/-- The `onChange` of the price input:
`setBookingDetails((prev) => ({ ...prev, price: e.target.value }))`. -/
def onPriceChange (text : String) (s : ChatState) : ChatState :=
  { s with bookingDetails := .obj (JSObj.set s.bookingDetails.spread "price" (.str text)) }

/-- The `onClick` of the button "Propose New Price". -/
def proposeClick (p : Props) (now : String) (out : PutOutcome) (s : ChatState) :
    ChatState × List Effect :=
  match s.bookingDetails.prop "price" with
  | none => (s, [.uncaughtTypeError])
  | some newPrice =>
    if !truthy newPrice || jsIsNaN newPrice || (toNumber newPrice).le .zero then
      (s, [.alert "Please enter a valid price."])
    else
      match out with
      | .rejected =>
        (s, [putPrice p newPrice, .consoleError "Error proposing new price:",
             .alert "Failed to propose new price."])
      | .resolved updatedBooking =>
        let proposalMsg := noticeMessage p now s.userId
          ("💬 " ++ partyName p.role ++ " proposed a new price: $" ++ toJSString newPrice)
        ({ s with bookingDetails := updatedBooking, messages := s.messages ++ [proposalMsg] },
         [putPrice p newPrice,
          .emit "booking_updated" updatedBooking,
          .emit "send_message" (.obj proposalMsg),
          .alert "New price proposed successfully!"])

/-- The `onClick` of the button "Agree to Price". -/
def agreeClick (p : Props) (now : String) (out : PutOutcome) (s : ChatState) :
    ChatState × List Effect :=
  match out with
  | .rejected =>
    (s, [putAgree p, .consoleError "Error agreeing to price:", .alert "Failed to agree to price."])
  | .resolved updatedBooking =>
    let agreeMsg := noticeMessage p now s.userId
      ("✅ " ++ partyName p.role ++ " agreed to the price.")
    ({ s with bookingDetails := updatedBooking, messages := s.messages ++ [agreeMsg] },
     [putAgree p,
      .emit "booking_updated" updatedBooking,
      .emit "send_message" (.obj agreeMsg),
      .alert "You have agreed to the price!"])

/-! ### The rendered negotiation section -/

/-- Whether the right panel shows the booking: past the loading screen and
`bookingDetails && (...)`. -/
def panelRendered (s : ChatState) : Bool := !s.loading && s.bookingDetails.truthy

/-- The guard of the negotiation section:
`["Pending", "Negotiating"].includes(bookingDetails.status)`. -/
def negotiationOpen (bd : Value) : Bool :=
  match bd.prop "status" with
  | some st => includes [.str "Pending", .str "Negotiating"] st
  | none => false

/-- The attribute `disabled` shared by the price input and the two buttons:
`agreement_signed_by_client && agreement_signed_by_provider`, set when truthy. -/
def lockDisabled (bd : Value) : Bool :=
  match bd.prop "agreement_signed_by_client", bd.prop "agreement_signed_by_provider" with
  | some c, some pr => truthy (jsAnd c pr)
  | _, _ => false

/-- A control of the page: whether it is in the rendered tree and whether it is disabled. -/
structure Control where
  rendered : Bool
  disabled : Bool
  deriving DecidableEq, Repr

/-- A control can be activated when it is rendered and not disabled. -/
def Control.active (c : Control) : Bool := c.rendered && !c.disabled

/-- The three controls of the negotiation section share guard and `disabled`. -/
def negotiationControl (s : ChatState) : Control :=
  { rendered := panelRendered s && negotiationOpen s.bookingDetails,
    disabled := lockDisabled s.bookingDetails }

/-- The price input. -/
def priceInput (s : ChatState) : Control := negotiationControl s

/-- The button "Propose New Price". -/
def proposeButton (s : ChatState) : Control := negotiationControl s

/-- The button "Agree to Price". -/
def agreeButton (s : ChatState) : Control := negotiationControl s

/-- The button "Proceed to Payment":
`bookingDetails.status === "Confirmed" && role === "user"`. -/
def paymentButton (p : Props) (s : ChatState) : Control :=
  { rendered := panelRendered s &&
      (match s.bookingDetails.prop "status" with
       | some st => strictEq st (.str "Confirmed") && strictEq p.role (.str "user")
       | none => false),
    disabled := false }

/-- What the user can do in the negotiation section. -/
inductive UIAction where
  | typePrice (text : String)
  | clickPropose
  | clickAgree
  deriving DecidableEq, Repr

/-- One user action on the rendered page: `none` when the control it targets cannot be
activated, else the state and the effects its handler leaves. -/
def uiStep (p : Props) (now : String) (out : PutOutcome) (s : ChatState) :
    UIAction → Option (ChatState × List Effect)
  | .typePrice text => if (priceInput s).active then some (onPriceChange text s, []) else none
  | .clickPropose => if (proposeButton s).active then some (proposeClick p now out s) else none
  | .clickAgree => if (agreeButton s).active then some (agreeClick p now out s) else none

/-- Whether an effect is a `PUT` request. -/
def Effect.isPut : Effect → Bool
  | .put _ _ _ => true
  | _ => false

/-- Whether an effect is a socket emission. -/
def Effect.isEmit : Effect → Bool
  | .emit _ _ => true
  | _ => false

/-! ### The socket effect -/

/-- What the closures created by one run of the socket effect capture from their render. -/
structure EffectScope where
  props : Props
  userId : JSNum
  deriving DecidableEq, Repr

/-- A listener registered on the shared `socket` by the effect. -/
inductive Handler where
  | loadMessages
  | receiveMessage (scope : EffectScope)
  | bookingUpdated
  deriving DecidableEq, Repr

/-- A call on the shared `socket` object. -/
inductive SocketCall where
  | connect
  | emit (event : String) (payload : Value)
  | on (event : String) (handler : Handler)
  | off (event : String)
  deriving DecidableEq, Repr

/-- The payload `{ bookingId: parseInt(bookingId), role }` of `join_room` and `leave_room`. -/
def roomPayload (p : Props) : Value :=
  .obj [("bookingId", .num (parseInt p.bookingId)), ("role", p.role)]

/-- One run of the socket effect on the render `(p, s)`; `connected` is `socket.connected`
at that moment. The result is the calls made on the socket, in order, and the scope of the
cleanup function the run returns, if it returns one. -/
def socketEffect (p : Props) (s : ChatState) (connected : Bool) :
    List SocketCall × Option EffectScope :=
  if s.loading || !s.bookingDetails.truthy then ([], none)
  else
    ((if !connected then [SocketCall.connect] else []) ++
      [.emit "join_room" (roomPayload p),
       .on "load_messages" .loadMessages,
       .on "receive_message" (.receiveMessage { props := p, userId := s.userId }),
       .on "booking_updated" .bookingUpdated],
     some { props := p, userId := s.userId })

/-- The cleanup function returned by a run of the socket effect. -/
def socketCleanup (scope : EffectScope) : List SocketCall :=
  [.emit "leave_room" (roomPayload scope.props),
   .off "load_messages",
   .off "receive_message",
   .off "booking_updated"]

/-- What happens to the mounted component as far as the socket effect goes: a commit in
which the effect runs (the mount, or a change of one of its dependencies), or the unmount. -/
inductive Lifecycle where
  | commit (p : Props) (s : ChatState) (connected : Bool)
  | unmount
  deriving DecidableEq, Repr

/-- The cleanup React still owes, run. -/
def runPending : Option EffectScope → List SocketCall
  | some scope => socketCleanup scope
  | none => []

/-- React's handling of the effect: before a run the cleanup of the previous run is called,
if that run returned one; at unmount the cleanup of the last run is called. The state is the
cleanup still owed. -/
def lifecycleStep (pending : Option EffectScope) :
    Lifecycle → Option EffectScope × List SocketCall
  | .commit p s connected =>
    ((socketEffect p s connected).2, runPending pending ++ (socketEffect p s connected).1)
  | .unmount => (none, runPending pending)

/-- A sequence of commits and unmounts: the cleanup owed at the end and all socket calls. -/
def lifecycleRun (pending : Option EffectScope) :
    List Lifecycle → Option EffectScope × List SocketCall
  | [] => (pending, [])
  | ev :: evs =>
    ((lifecycleRun (lifecycleStep pending ev).1 evs).1,
     (lifecycleStep pending ev).2 ++ (lifecycleRun (lifecycleStep pending ev).1 evs).2)

/-- A room event sent to the server. -/
inductive RoomEvent where
  | join (payload : Value)
  | leave (payload : Value)
  deriving DecidableEq, Repr

/-- The room events among socket calls, in order. -/
def roomEvents : List SocketCall → List RoomEvent
  | [] => []
  | .emit event payload :: rest =>
    if event = "join_room" then .join payload :: roomEvents rest
    else if event = "leave_room" then .leave payload :: roomEvents rest
    else roomEvents rest
  | _ :: rest => roomEvents rest

/-- The number of `join_room` events. -/
def countJoins : List RoomEvent → Nat
  | [] => 0
  | .join _ :: rest => countJoins rest + 1
  | .leave _ :: rest => countJoins rest

/-- The number of `leave_room` events. -/
def countLeaves : List RoomEvent → Nat
  | [] => 0
  | .join _ :: rest => countLeaves rest
  | .leave _ :: rest => countLeaves rest + 1

/-- The room events of runs that joined and were cleaned up: a join and then a leave with
the same payload, for each payload in turn. -/
def completedRuns : List Value → List RoomEvent
  | [] => []
  | x :: xs => .join x :: .leave x :: completedRuns xs

/-- The room events of a last run that joined and is not cleaned up yet. -/
def openRun : Option Value → List RoomEvent
  | some x => [.join x]
  | none => []

/-- Whether room events alternate join, leave, join, ... with each leave carrying the payload
of the join before it; `joined` is the payload of a join still waiting for its leave. -/
def paired : Option Value → List RoomEvent → Bool
  | _, [] => true
  | none, .join x :: rest => paired (some x) rest
  | some x, .leave y :: rest => x == y && paired none rest
  | none, .leave _ :: _ => false
  | some _, .join _ :: _ => false

/-- The listener table of the shared socket: event name and handler, in registration order. -/
abbrev Listeners := List (String × Handler)

/-- The effect of one socket call on the listener table: `on` adds a listener, `off` with an
event name only removes every listener of that event. -/
def applyCall (t : Listeners) : SocketCall → Listeners
  | .on event handler => t ++ [(event, handler)]
  | .off event => t.filter (fun e => e.1 != event)
  | _ => t

/-- The listener table after a sequence of socket calls. -/
def listenersAfter (t : Listeners) (calls : List SocketCall) : Listeners :=
  calls.foldl applyCall t

/-- The handlers registered for an event. -/
def handlersFor (t : Listeners) (event : String) : List Handler :=
  (t.filter (fun e => e.1 == event)).map Prod.snd

/-- An event arriving from the server. -/
inductive Incoming where
  | loadMessages (history : History)
  | receiveMessage (data : JSObj)
  | bookingUpdated (updatedBooking : Value)
  deriving DecidableEq, Repr

/-- The name of an incoming event. -/
def Incoming.event : Incoming → String
  | .loadMessages _ => "load_messages"
  | .receiveMessage _ => "receive_message"
  | .bookingUpdated _ => "booking_updated"

/-- A registered handler called with an incoming event. The `receive_message` handler tests
the echo against the `userId` and `role` of the render that registered it. A handler is only
ever registered under the event whose payload it expects; on another payload it does
nothing here. -/
def Handler.call : Handler → Incoming → ChatState → ChatState
  | .loadMessages, .loadMessages history, s => onLoadMessages history s
  | .receiveMessage scope, .receiveMessage data, s =>
    if isEcho scope.props scope.userId data then s
    else { s with messages := s.messages ++ [data] }
  | .bookingUpdated, .bookingUpdated updatedBooking, s => onBookingUpdated updatedBooking s
  | _, _, s => s

/-- An incoming event delivered to the socket: every handler registered for it is called, in
registration order. -/
def deliver (t : Listeners) (inc : Incoming) (s : ChatState) : ChatState :=
  (handlersFor t inc.event).foldl (fun st h => h.call inc st) s

/-- The listeners one run of the effect registers. -/
def registered (scope : EffectScope) : Listeners :=
  [("load_messages", .loadMessages),
   ("receive_message", .receiveMessage scope),
   ("booking_updated", .bookingUpdated)]

/-- The listener table that matches the cleanup React still owes: the three listeners of the
last run when it joined and is not cleaned up, no listener otherwise. -/
def tableOf : Option EffectScope → Listeners
  | some scope => registered scope
  | none => []

/-! ### Sample inputs -/

/-- A browser whose `localStorage` holds a role and a token but no `userId`. -/
def storageNoId : Storage := fun k =>
  if k = "userRole" then some "user" else if k = "authToken" then some "t0k" else none

/-- A browser of the client with id 7. -/
def storageClient : Storage := fun k =>
  if k = "userRole" then some "user"
  else if k = "userId" then some "7"
  else if k = "authToken" then some "t0k" else none

/-- A loaded chat of the client with id 7 on booking 42, showing the given booking. -/
def clientChat (booking : JSObj) : ChatState :=
  { initialState storageClient with bookingDetails := .obj booking, loading := false }

/-- The props of the client with id 7 on booking 42. -/
def clientProps : Props := propsOf storageClient (.str "42")

/-- A history of the page: first render while loading, the loaded chat, a change of the
booking, a move to booking 43, the unmount. -/
def sampleLifecycle : List Lifecycle :=
  [.commit clientProps (initialState storageClient) false,
   .commit clientProps (clientChat [("status", .str "Pending")]) false,
   .commit clientProps (clientChat [("status", .str "Negotiating")]) true,
   .commit (propsOf storageClient (.str "43")) (clientChat [("status", .str "Pending")]) true,
   .unmount]

/-! ## Part 3: properties -/

set_option exponentiation.threshold 2000
set_option maxRecDepth 4000

theorem JSNum.toDouble_zero : (JSNum.fin 0 0).toDouble = .fin 0 0 := by
  simp [JSNum.toDouble]

theorem JSNum.nearestDouble_ne_nan (negative : Bool) (n d : Nat) :
    JSNum.nearestDouble negative n d ≠ .nan := by
  unfold JSNum.nearestDouble JSNum.ofBinary
  cases negative <;> simp only [] <;> split_ifs <;> simp

theorem JSNum.toDouble_ne_nan (n : JSNum) (h : n ≠ .nan) : n.toDouble ≠ .nan := by
  cases n with
  | nan => exact absurd rfl h
  | posInf => simp [JSNum.toDouble]
  | negInf => simp [JSNum.toDouble]
  | fin m e =>
    simp only [JSNum.toDouble]
    split_ifs
    · simp
    · exact JSNum.nearestDouble_ne_nan _ _ _
    · exact JSNum.nearestDouble_ne_nan _ _ _

theorem JSNum.eqExact_self (r : JSNum) (h : r ≠ .nan) : r.eqExact r = true := by
  cases r <;> simp_all [JSNum.eqExact, JSNum.align]

theorem JSNum.exact_of_zero_lt (r : JSNum) (h : JSNum.ltExact (.fin 0 0) r = true) :
    r ≠ .nan ∧ r.leExact (.fin 0 0) = false ∧ r.zeroExact = false := by
  have h10 : ∀ k : ℕ, (0 : Int) < 10 ^ k := fun k => by positivity
  cases r with
  | nan => simp [JSNum.ltExact] at h
  | posInf => simp [JSNum.leExact, JSNum.zeroExact]
  | negInf => simp [JSNum.ltExact] at h
  | fin m e =>
    simp only [JSNum.ltExact, JSNum.align, zero_mul, decide_eq_true_eq] at h
    have hm : 0 < m := pos_of_mul_pos_left h (le_of_lt (h10 _))
    refine ⟨by simp, ?_, ?_⟩
    · simp only [JSNum.leExact, JSNum.align, zero_mul, decide_eq_false_iff_not, not_le]
      exact mul_pos hm (h10 _)
    · simp [JSNum.zeroExact]; omega

theorem JSNum.strictEq_self (n : JSNum) (h : n ≠ .nan) : n.strictEq n = true :=
  JSNum.eqExact_self _ (JSNum.toDouble_ne_nan n h)

theorem JSNum.eqExact_nan (r : JSNum) : r.eqExact .nan = false := by
  cases r <;> rfl

theorem JSNum.strictEq_nan (n : JSNum) : n.strictEq .nan = false :=
  JSNum.eqExact_nan _

theorem JSNum.of_zero_lt (n : JSNum) (h : JSNum.lt .zero n = true) :
    n.isNaN = false ∧ n.le .zero = false ∧ n.isZero = false := by
  simp only [JSNum.lt, JSNum.zero, JSNum.toDouble_zero] at h
  obtain ⟨h1, h2, h3⟩ := JSNum.exact_of_zero_lt _ h
  refine ⟨?_, ?_, ?_⟩
  · cases n with
    | nan => simp [JSNum.toDouble] at h1
    | posInf => rfl
    | negInf => rfl
    | fin m e => rfl
  · simpa [JSNum.le, JSNum.zero, JSNum.toDouble_zero] using h2
  · simpa [JSNum.isZero] using h3

theorem stringToNumber_empty : stringToNumber "" = .zero := by decide

theorem truthy_of_zero_lt (v : JSVal) (h : JSNum.lt .zero (toNumber v) = true) :
    truthy v = true ∧ jsIsNaN v = false ∧ (toNumber v).le .zero = false := by
  obtain ⟨h1, h2, h3⟩ := JSNum.of_zero_lt _ h
  have hz : JSNum.zero.isZero = true := by
    simp [JSNum.isZero, JSNum.zero, JSNum.toDouble_zero, JSNum.zeroExact]
  refine ⟨?_, h1, h2⟩
  cases v with
  | undefined => simp [toNumber, JSNum.isNaN] at h1
  | null => rw [toNumber, hz] at h3; exact absurd h3 (by simp)
  | bool b =>
    cases b
    · rw [toNumber, hz] at h3; exact absurd h3 (by simp)
    · rfl
  | num n => simp_all [toNumber, truthy]
  | str s =>
    simp only [truthy, ne_eq, decide_eq_true_eq]
    rintro rfl
    rw [toNumber, stringToNumber_empty, hz] at h3
    exact absurd h3 (by simp)

theorem all_of_all_dropWhile (q : Char → Bool) (cs : List Char)
    (h : ∀ x ∈ cs.dropWhile q, q x = true) : ∀ x ∈ cs, q x = true := by
  induction cs with
  | nil => simp
  | cons a t ih =>
    by_cases ha : q a = true
    · simp only [List.dropWhile_cons, ha, if_true] at h
      intro x hx
      rcases List.mem_cons.mp hx with rfl | hx
      · exact ha
      · exact ih h x hx
    · simp only [List.dropWhile_cons, ha] at h
      exact h

theorem trimChars_eq_nil_iff (cs : List Char) :
    trimChars cs = [] ↔ cs.all isWhiteSpace = true := by
  rw [List.all_eq_true]
  constructor
  · intro h
    simp only [trimChars, trimStartChars, List.reverse_eq_nil_iff, List.dropWhile_eq_nil_iff,
      List.mem_reverse] at h
    exact all_of_all_dropWhile _ _ h
  · intro h
    have : cs.dropWhile isWhiteSpace = [] := List.dropWhile_eq_nil_iff.mpr h
    simp [trimChars, trimStartChars, this]

theorem truthy_trim (s : String) :
    truthy (.str (trim s)) = !(s.data.all isWhiteSpace) := by
  have h := trimChars_eq_nil_iff s.data
  by_cases hall : s.data.all isWhiteSpace = true
  · have : trim s = "" := by simp [trim, h.mpr hall]
    simp [truthy, this, hall]
  · have hne : trimChars s.data ≠ [] := fun hc => hall (h.mp hc)
    have : trim s ≠ "" := by
      intro hc
      apply hne
      have := congrArg String.data hc
      simpa [trim] using this
    simp only [Bool.not_eq_true] at hall
    simp [truthy, this, hall]

theorem JSObj.get_set_ne (o : JSObj) (k k' : String) (v : JSVal) (h : k ≠ k') :
    JSObj.get (JSObj.set o k v) k' = JSObj.get o k' := by
  induction o with
  | nil => simp [JSObj.set, JSObj.get, h]
  | cons kv rest ih =>
    obtain ⟨k0, v0⟩ := kv
    by_cases h0 : k0 = k
    · subst h0
      simp [JSObj.set, JSObj.get, h]
    · by_cases h1 : k0 = k'
      · subst h1
        simp [JSObj.set, JSObj.get, h0]
      · simp [JSObj.set, JSObj.get, h0, h1, ih]

theorem sameValueZero_str_ne (a : String) (st : JSVal) (h : st ≠ .str a) :
    sameValueZero (.str a) st = false := by
  cases st <;> simp_all [sameValueZero, strictEq]
  intro hc; exact h hc.symm

/-- The conversions round as `Number` does: a literal below half the least positive double
is `0`, one above the largest double is infinite, a literal between two doubles is the
nearer one, and `parseInt` of an integer above `2 ^ 53` is the nearest double. -/
theorem number_conversions_round :
    stringToNumber "1e-400" = .fin 0 0 ∧
    stringToNumber "1e400" = .posInf ∧
    stringToNumber "7.0000000000000000000001" = .fin 7 0 ∧
    stringToNumber "12.50" = .fin 125 (-1) ∧
    parseInt (.str "9007199254740993") = .fin 9007199254740992 0 ∧
    toJSString (.num (stringToNumber "0.1")) = "0.1" ∧
    toJSString (.num (.fin 1 (-400))) = "0" ∧
    truthy (.num (.fin 1 (-400))) = false := by
  decide

/-- The method `toLowerCase` folds letters outside `A` to `Z` too, and treats the capital
sigma by its position. -/
theorem toLowerCase_unicode :
    toLowerCase "ÉLÈVE" = "élève" ∧ toLowerCase "Élève" = "élève" ∧
    toLowerCase "ΌΣΟΣ" = "όσος" ∧ toLowerCase "Provider" = "provider" := by
  decide

/-- The echo test sees through the case of letters outside `A` to `Z` and through the
spelling of a number: the client with id 7 and role `"Élève"` drops a message whose sender
is written `"7.0000000000000000000001"` with role `"ÉLÈVE"`. -/
theorem echo_dropped_whatever_the_spelling (s : ChatState) (hid : s.userId = .fin 7 0) :
    onReceiveMessage { bookingId := .str "42", role := .str "Élève", token := .null }
        [("sender_id", .str "7.0000000000000000000001"), ("sender_role", .str "ÉLÈVE")] s = s := by
  have h : isEcho { bookingId := .str "42", role := .str "Élève", token := .null } (.fin 7 0)
      [("sender_id", .str "7.0000000000000000000001"), ("sender_role", .str "ÉLÈVE")] = true := by
    decide
  simp [onReceiveMessage, hid, h]

/-- With a numeric `userId`, a message built by `sendMessage` is recognised as an echo:
the `receive_message` handler leaves every state of that client as it is. -/
theorem no_echo_of_numeric_userId (p : Props) (now : String) (s s' : ChatState)
    (hid : s.userId ≠ .nan) (hsame : s'.userId = s.userId) :
    onReceiveMessage p (newMessage p now s) s' = s' := by
  have h : isEcho p s'.userId (newMessage p now s) = true := by
    simp [isEcho, newMessage, JSObj.get, toNumber, hsame, JSNum.strictEq_self _ hid]
  simp [onReceiveMessage, h]

/-- A client whose `userId` is `NaN` recognises no message as its own: whatever arrives
through `receive_message` is appended. -/
theorem appended_when_userId_nan (p : Props) (data : JSObj) (s : ChatState)
    (hid : s.userId = .nan) :
    onReceiveMessage p data s = { s with messages := s.messages ++ [data] } := by
  simp [onReceiveMessage, isEcho, hid, JSNum.strictEq_nan]

/-- C1 (the code misses a case): with no `userId` in `localStorage` the client holds
`userId = NaN`; the message it sends is appended locally by `sendMessage`, and when the same
message comes back through `receive_message` the echo test fails (`NaN === NaN` is false) and
the message is appended a second time. The same happens when the message comes back as its
JSON form, in which `sender_id` is `null`. -/
theorem own_message_appended_twice_without_stored_id :
    storedUserId storageNoId = .nan ∧
    (sendMessage (propsOf storageNoId (.str "42")) "2025-01-01T10:00:00.000Z"
        { initialState storageNoId with message := "hi", loading := false }).1.messages =
      [[("bookingId", .num (.fin 42 0)), ("sender_id", .num .nan), ("sender_role", .str "user"),
        ("message", .str "hi"), ("timestamp", .str "2025-01-01T10:00:00.000Z")]] ∧
    (onReceiveMessage (propsOf storageNoId (.str "42"))
        [("bookingId", .num (.fin 42 0)), ("sender_id", .num .nan), ("sender_role", .str "user"),
         ("message", .str "hi"), ("timestamp", .str "2025-01-01T10:00:00.000Z")]
        (sendMessage (propsOf storageNoId (.str "42")) "2025-01-01T10:00:00.000Z"
          { initialState storageNoId with message := "hi", loading := false }).1).messages =
      [[("bookingId", .num (.fin 42 0)), ("sender_id", .num .nan), ("sender_role", .str "user"),
        ("message", .str "hi"), ("timestamp", .str "2025-01-01T10:00:00.000Z")],
       [("bookingId", .num (.fin 42 0)), ("sender_id", .num .nan), ("sender_role", .str "user"),
        ("message", .str "hi"), ("timestamp", .str "2025-01-01T10:00:00.000Z")]] ∧
    (onReceiveMessage (propsOf storageNoId (.str "42"))
        [("bookingId", .num (.fin 42 0)), ("sender_id", .null), ("sender_role", .str "user"),
         ("message", .str "hi"), ("timestamp", .str "2025-01-01T10:00:00.000Z")]
        (sendMessage (propsOf storageNoId (.str "42")) "2025-01-01T10:00:00.000Z"
          { initialState storageNoId with message := "hi", loading := false }).1).messages =
      [[("bookingId", .num (.fin 42 0)), ("sender_id", .num .nan), ("sender_role", .str "user"),
        ("message", .str "hi"), ("timestamp", .str "2025-01-01T10:00:00.000Z")],
       [("bookingId", .num (.fin 42 0)), ("sender_id", .null), ("sender_role", .str "user"),
        ("message", .str "hi"), ("timestamp", .str "2025-01-01T10:00:00.000Z")]] := by
  decide

/-- C2: the click handler of "Propose New Price" on a booking view `bd`. When
`bd.price` is empty (`null`, `undefined` or the empty string), not numeric (`Number` gives
`NaN`) or numerically `<= 0`, the handler only alerts: no request, no socket event, state
unchanged. When `bd.price` is numerically `> 0`, the first thing the handler does is the
request `PUT /bookings/:id/price` whose body is that very price. -/
theorem proposeClick_validates_price (p : Props) (now : String) (out : PutOutcome)
    (s : ChatState) (bd : JSObj) (hs : s.bookingDetails = .obj bd) :
    ((bd.get "price" = .null ∨ bd.get "price" = .undefined ∨ bd.get "price" = .str "" ∨
        toNumber (bd.get "price") = .nan ∨ (toNumber (bd.get "price")).le .zero = true) →
      proposeClick p now out s = (s, [.alert "Please enter a valid price."])) ∧
    (JSNum.lt .zero (toNumber (bd.get "price")) = true →
      ∃ rest, (proposeClick p now out s).2 =
        Effect.put ("/bookings/" ++ toJSString p.bookingId ++ "/price")
          [("price", bd.get "price")] ("Bearer " ++ toJSString p.token) :: rest) := by
  constructor
  · intro h
    have hbad : (!truthy (bd.get "price") || jsIsNaN (bd.get "price") ||
        (toNumber (bd.get "price")).le .zero) = true := by
      rcases h with h | h | h | h | h
      · simp [h, truthy]
      · simp [h, truthy]
      · simp [h, truthy]
      · simp [jsIsNaN, h, JSNum.isNaN]
      · simp [h]
    simp [proposeClick, hs, Value.prop, hbad]
  · intro h
    obtain ⟨h1, h2, h3⟩ := truthy_of_zero_lt _ h
    cases out <;>
      simp [proposeClick, hs, Value.prop, h1, h2, h3, putPrice, authorization]

/-- Witness for C2: the prices `"-5"` and `"1e-400"` (which `Number` rounds to `0`) are
refused and the price `"12.50"` is sent. -/
theorem proposeClick_validates_price_witness :
    (proposeClick clientProps "2025-01-01T10:00:00.000Z" .rejected
        (clientChat [("status", .str "Pending"), ("price", .str "-5")]) =
      (clientChat [("status", .str "Pending"), ("price", .str "-5")],
        [.alert "Please enter a valid price."])) ∧
    (proposeClick clientProps "2025-01-01T10:00:00.000Z" .rejected
        (clientChat [("status", .str "Pending"), ("price", .str "1e-400")]) =
      (clientChat [("status", .str "Pending"), ("price", .str "1e-400")],
        [.alert "Please enter a valid price."])) ∧
    (∃ rest, (proposeClick clientProps "2025-01-01T10:00:00.000Z" .rejected
        (clientChat [("status", .str "Pending"), ("price", .str "12.50")])).2 =
      Effect.put ("/bookings/" ++ toJSString clientProps.bookingId ++ "/price")
        [("price", JSObj.get [("status", .str "Pending"), ("price", .str "12.50")] "price")]
        ("Bearer " ++ toJSString clientProps.token) :: rest) :=
  ⟨(proposeClick_validates_price clientProps "2025-01-01T10:00:00.000Z" .rejected
      (clientChat [("status", .str "Pending"), ("price", .str "-5")])
      [("status", .str "Pending"), ("price", .str "-5")] rfl).1
      (Or.inr (Or.inr (Or.inr (Or.inr (by decide))))),
   (proposeClick_validates_price clientProps "2025-01-01T10:00:00.000Z" .rejected
      (clientChat [("status", .str "Pending"), ("price", .str "1e-400")])
      [("status", .str "Pending"), ("price", .str "1e-400")] rfl).1
      (Or.inr (Or.inr (Or.inr (Or.inr (by decide))))),
   (proposeClick_validates_price clientProps "2025-01-01T10:00:00.000Z" .rejected
      (clientChat [("status", .str "Pending"), ("price", .str "12.50")])
      [("status", .str "Pending"), ("price", .str "12.50")] rfl).2 (by decide)⟩

/-- C3 (the code misses a check its sibling makes): `handleUpdatePrice` tests only
`!newPrice || isNaN(newPrice)`, so the answers `"-5"` and `"0"` pass: the request
`PUT /bookings/42/price` is sent with that price, the booking view is replaced by the
response and a `send_message` is emitted. -/
theorem handleUpdatePrice_sends_nonpositive_price :
    handleUpdatePrice clientProps (fun _ => some "-5") "2025-01-01T10:00:00.000Z"
        (.resolved (.obj [("status", .str "Negotiating"), ("price", .str "-5")]))
        (clientChat [("status", .str "Pending"), ("price", .null)]) =
      (clientChat [("status", .str "Negotiating"), ("price", .str "-5")],
       [.prompt "Enter a new price:" (.str ""),
        .put "/bookings/42/price" [("price", .str "-5")] "Bearer t0k",
        .emit "send_message" (.obj
          [("bookingId", .str "42"), ("sender_id", .num (.fin 7 0)), ("sender_role", .str "user"),
           ("message", .str "💬 Provider proposed a new price: $-5"),
           ("timestamp", .str "2025-01-01T10:00:00.000Z")])]) ∧
    handleUpdatePrice clientProps (fun _ => some "0") "2025-01-01T10:00:00.000Z"
        (.resolved (.obj [("status", .str "Negotiating"), ("price", .str "0")]))
        (clientChat [("status", .str "Pending"), ("price", .null)]) =
      (clientChat [("status", .str "Negotiating"), ("price", .str "0")],
       [.prompt "Enter a new price:" (.str ""),
        .put "/bookings/42/price" [("price", .str "0")] "Bearer t0k",
        .emit "send_message" (.obj
          [("bookingId", .str "42"), ("sender_id", .num (.fin 7 0)), ("sender_role", .str "user"),
           ("message", .str "💬 Provider proposed a new price: $0"),
           ("timestamp", .str "2025-01-01T10:00:00.000Z")])]) := by
  decide

/-- C4: on a booking view whose two agreement flags are both set (truthy, in particular both
`true`), or whose status is neither `"Pending"` nor `"Negotiating"` (for instance
`"Confirmed"`), each of the price input, "Propose New Price" and "Agree to Price" is either not
rendered or disabled, and no user action on them is possible: the page can neither change the
local price nor send a price or an agree request. -/
theorem negotiation_controls_locked (p : Props) (now : String) (out : PutOutcome)
    (s : ChatState) (bd : JSObj) (hs : s.bookingDetails = .obj bd)
    (hlock :
      (truthy (bd.get "agreement_signed_by_client") = true ∧
        truthy (bd.get "agreement_signed_by_provider") = true) ∨
      (bd.get "status" ≠ .str "Pending" ∧ bd.get "status" ≠ .str "Negotiating")) :
    ((priceInput s).rendered = false ∨ (priceInput s).disabled = true) ∧
    ((proposeButton s).rendered = false ∨ (proposeButton s).disabled = true) ∧
    ((agreeButton s).rendered = false ∨ (agreeButton s).disabled = true) ∧
    (∀ a : UIAction, uiStep p now out s a = none) := by
  have hc : (negotiationControl s).rendered = false ∨ (negotiationControl s).disabled = true := by
    rcases hlock with ⟨h1, h2⟩ | ⟨h1, h2⟩
    · right
      simp [negotiationControl, lockDisabled, hs, Value.prop, jsAnd, h1, h2]
    · left
      simp [negotiationControl, negotiationOpen, hs, Value.prop, includes,
        sameValueZero_str_ne _ _ h1, sameValueZero_str_ne _ _ h2]
  have ha : (negotiationControl s).active = false := by
    rcases hc with h | h <;> simp [Control.active, h]
  refine ⟨hc, hc, hc, ?_⟩
  intro a
  cases a <;> simp [uiStep, priceInput, proposeButton, agreeButton, ha]

/-- Witness for C4: a confirmed booking with both flags `true`. -/
theorem negotiation_controls_locked_witness :
    ((priceInput (clientChat [("status", .str "Confirmed"), ("price", .str "50"),
        ("agreement_signed_by_client", .bool true),
        ("agreement_signed_by_provider", .bool true)])).rendered = false ∨
      (priceInput (clientChat [("status", .str "Confirmed"), ("price", .str "50"),
        ("agreement_signed_by_client", .bool true),
        ("agreement_signed_by_provider", .bool true)])).disabled = true) ∧
    (∀ a : UIAction, uiStep clientProps "2025-01-01T10:00:00.000Z" .rejected
      (clientChat [("status", .str "Confirmed"), ("price", .str "50"),
        ("agreement_signed_by_client", .bool true),
        ("agreement_signed_by_provider", .bool true)]) a = none) :=
  have h := negotiation_controls_locked clientProps "2025-01-01T10:00:00.000Z" .rejected
    (clientChat [("status", .str "Confirmed"), ("price", .str "50"),
      ("agreement_signed_by_client", .bool true),
      ("agreement_signed_by_provider", .bool true)])
    [("status", .str "Confirmed"), ("price", .str "50"),
      ("agreement_signed_by_client", .bool true),
      ("agreement_signed_by_provider", .bool true)] rfl (Or.inl (by decide))
  ⟨h.1, h.2.2.2⟩

/-- C5 as stated fails: on a pending booking whose price is `null` the button
"Agree to Price" is active, and clicking it sends `PUT /bookings/42/agree`; so does
`handleAgree`. -/
theorem agree_request_sent_with_null_price :
    (agreeButton (clientChat [("status", .str "Pending"), ("price", .null)])).active = true ∧
    uiStep clientProps "2025-01-01T10:00:00.000Z" .rejected
        (clientChat [("status", .str "Pending"), ("price", .null)]) .clickAgree =
      some (clientChat [("status", .str "Pending"), ("price", .null)],
        [.put "/bookings/42/agree" [("role", .str "user")] "Bearer t0k",
         .consoleError "Error agreeing to price:", .alert "Failed to agree to price."]) ∧
    handleAgree clientProps "2025-01-01T10:00:00.000Z" .rejected
        (clientChat [("status", .str "Pending"), ("price", .null)]) =
      (clientChat [("status", .str "Pending"), ("price", .null)],
        [.put "/bookings/42/agree" [("role", .str "user")] "Bearer t0k",
         .consoleError "Error agreeing to price:"]) := by
  decide

/-- C5 as amended: on a booking view whose price is `null`, "Agree to Price" and
`handleAgree` both start by sending `PUT /bookings/:id/agree` with body `{ role }` (the client
makes no price check); when that request fails, the state is left as it was (no agreement
message appended, booking view unchanged, its price still `null`) and no socket event is
emitted. -/
theorem agree_with_null_price_sends_then_needs_success (p : Props) (now : String)
    (out : PutOutcome) (s : ChatState) (bd : JSObj) (hs : s.bookingDetails = .obj bd)
    (hprice : bd.get "price" = .null) :
    (∃ rest, (agreeClick p now out s).2 =
      Effect.put ("/bookings/" ++ toJSString p.bookingId ++ "/agree") [("role", p.role)]
        ("Bearer " ++ toJSString p.token) :: rest) ∧
    (∃ rest, (handleAgree p now out s).2 =
      Effect.put ("/bookings/" ++ toJSString p.bookingId ++ "/agree") [("role", p.role)]
        ("Bearer " ++ toJSString p.token) :: rest) ∧
    (agreeClick p now .rejected s).1 = s ∧
    (∀ e ∈ (agreeClick p now .rejected s).2, e.isEmit = false) ∧
    (handleAgree p now .rejected s).1 = s ∧
    (∀ e ∈ (handleAgree p now .rejected s).2, e.isEmit = false) ∧
    (agreeClick p now .rejected s).1.bookingDetails.prop "price" = some .null ∧
    (handleAgree p now .rejected s).1.bookingDetails.prop "price" = some .null := by
  refine ⟨?_, ?_, rfl, ?_, rfl, ?_, ?_, ?_⟩
  · cases out <;> simp [agreeClick, putAgree, authorization]
  · cases out <;> simp [handleAgree, putAgree, authorization]
  · simp [agreeClick, putAgree, Effect.isEmit]
  · simp [handleAgree, putAgree, Effect.isEmit]
  · simp [agreeClick, hs, Value.prop, hprice]
  · simp [handleAgree, hs, Value.prop, hprice]

/-- Witness for C5 as amended: a pending booking with price `null`. -/
theorem agree_with_null_price_sends_then_needs_success_witness :
    ∃ rest, (agreeClick clientProps "2025-01-01T10:00:00.000Z" .rejected
        (clientChat [("status", .str "Pending"), ("price", .null)])).2 =
      Effect.put ("/bookings/" ++ toJSString clientProps.bookingId ++ "/agree")
        [("role", clientProps.role)] ("Bearer " ++ toJSString clientProps.token) :: rest :=
  (agree_with_null_price_sends_then_needs_success clientProps "2025-01-01T10:00:00.000Z"
    .rejected (clientChat [("status", .str "Pending"), ("price", .null)])
    [("status", .str "Pending"), ("price", .null)] rfl rfl).1

/-- C6: after the `booking_updated` handler the booking view is exactly the received
booking, whatever the previous view was, also when a price had just been typed into the
input and not yet proposed; the rest of the state is untouched. -/
theorem booking_updated_replaces_whole_view (s : ChatState) (typed : String)
    (updatedBooking : Value) :
    (onBookingUpdated updatedBooking s).bookingDetails = updatedBooking ∧
    (onBookingUpdated updatedBooking (onPriceChange typed s)).bookingDetails = updatedBooking ∧
    onBookingUpdated updatedBooking (onPriceChange typed s) = onBookingUpdated updatedBooking s ∧
    (onBookingUpdated updatedBooking s).messages = s.messages ∧
    (onBookingUpdated updatedBooking s).message = s.message ∧
    (onBookingUpdated updatedBooking s).userId = s.userId := by
  simp [onBookingUpdated, onPriceChange]

/-- C7: a received message whose sender is not this client (`Number(sender_id) === userId`
is false, or `sender_role` and `role` differ once lower-cased) is appended after the messages
already there, which keep their order. In particular a client and a provider with the same
numeric id receive each other's messages. -/
theorem receive_message_appends_foreign (p : Props) (data : JSObj) (s : ChatState) :
    (((toNumber (data.get "sender_id")).strictEq s.userId = false ∨
        toLowerCase (toJSString (data.get "sender_role")) ≠ toLowerCase (toJSString p.role)) →
      onReceiveMessage p data s = { s with messages := s.messages ++ [data] }) ∧
    ((toNumber (data.get "sender_id")).strictEq s.userId = true →
      ((p.role = .str "user" ∧ data.get "sender_role" = .str "provider") ∨
        (p.role = .str "provider" ∧ data.get "sender_role" = .str "user")) →
      (onReceiveMessage p data s).messages = s.messages ++ [data]) := by
  constructor
  · intro h
    have he : isEcho p s.userId data = false := by
      rcases h with h | h
      · simp [isEcho, h]
      · simp [isEcho, h]
    simp [onReceiveMessage, he]
  · intro _ h
    have he : isEcho p s.userId data = false := by
      rcases h with ⟨h1, h2⟩ | ⟨h1, h2⟩
      · simp only [isEcho, h1, h2, toJSString, Bool.and_eq_false_iff]
        right; decide
      · simp only [isEcho, h1, h2, toJSString, Bool.and_eq_false_iff]
        right; decide
    simp [onReceiveMessage, he]

/-- Witness for C7: the client with id 7 receives a message of the provider with id 7. -/
theorem receive_message_appends_foreign_witness :
    onReceiveMessage clientProps
        [("sender_id", .num (.fin 7 0)), ("sender_role", .str "provider"), ("message", .str "ok")]
        (clientChat []) =
      { clientChat [] with messages := (clientChat []).messages ++
          [[("sender_id", .num (.fin 7 0)), ("sender_role", .str "provider"),
            ("message", .str "ok")]] } :=
  (receive_message_appends_foreign clientProps
    [("sender_id", .num (.fin 7 0)), ("sender_role", .str "provider"), ("message", .str "ok")]
    (clientChat [])).1 (Or.inr (by decide))

/-- C8: after the `load_messages` handler the message list is exactly the delivered history,
in the delivered order, whatever the list was before; a history that is `null` or `undefined`
gives the empty list; replaying the same history twice gives it once. -/
theorem load_messages_replaces_list (s : ChatState) (ms : List JSObj) :
    (onLoadMessages (.array ms) s).messages = ms ∧
    (onLoadMessages .null s).messages = [] ∧
    (onLoadMessages .undefined s).messages = [] ∧
    (onLoadMessages (.array ms) (onLoadMessages (.array ms) s)).messages = ms ∧
    onLoadMessages (.array ms) s = { s with messages := ms } := by
  simp [onLoadMessages]

/-- C9: `sendMessage` on a draft made of white space only (or empty) emits nothing and
changes nothing. On any other draft it emits exactly one `send_message` whose payload has the
five properties `bookingId` (`parseInt` of the route id), `sender_id` (`userId`),
`sender_role` (`role`), `message` (the draft as typed) and `timestamp`; the same payload is
appended once at the end of the message list and the draft becomes the empty string. -/
theorem sendMessage_blank_or_sent_once (p : Props) (now : String) (s : ChatState) :
    (s.message.data.all isWhiteSpace = true → sendMessage p now s = (s, [])) ∧
    (s.message.data.all isWhiteSpace = false →
      ∃ payload : JSObj,
        payload =
          [("bookingId", .num (parseInt p.bookingId)), ("sender_id", .num s.userId),
           ("sender_role", p.role), ("message", .str s.message), ("timestamp", .str now)] ∧
        sendMessage p now s =
          ({ s with messages := s.messages ++ [payload], message := "" },
           [.emit "send_message" (.obj payload)])) := by
  constructor
  · intro h
    simp [sendMessage, truthy_trim, h]
  · intro h
    exact ⟨_, rfl, by simp [sendMessage, truthy_trim, h, newMessage]⟩

/-- Witness for C9: a draft of blanks is not sent, the draft `" hi "` is sent as typed. -/
theorem sendMessage_blank_or_sent_once_witness :
    sendMessage clientProps "2025-01-01T10:00:00.000Z" { clientChat [] with message := "  \t" } =
      ({ clientChat [] with message := "  \t" }, []) ∧
    (∃ payload : JSObj,
      payload =
        [("bookingId", .num (parseInt clientProps.bookingId)),
         ("sender_id", .num ({ clientChat [] with message := " hi " } : ChatState).userId),
         ("sender_role", clientProps.role),
         ("message", .str ({ clientChat [] with message := " hi " } : ChatState).message),
         ("timestamp", .str "2025-01-01T10:00:00.000Z")] ∧
      sendMessage clientProps "2025-01-01T10:00:00.000Z" { clientChat [] with message := " hi " } =
        ({ ({ clientChat [] with message := " hi " } : ChatState) with
            messages := ({ clientChat [] with message := " hi " } : ChatState).messages ++ [payload],
            message := "" },
         [.emit "send_message" (.obj payload)])) :=
  ⟨(sendMessage_blank_or_sent_once clientProps "2025-01-01T10:00:00.000Z"
      { clientChat [] with message := "  \t" }).1 (by decide),
   (sendMessage_blank_or_sent_once clientProps "2025-01-01T10:00:00.000Z"
      { clientChat [] with message := " hi " }).2 (by decide)⟩

/-- C10: `handleUpdatePrice` has no status guard. On a cancelled booking the answer `"75"`
is sent as `PUT /bookings/42/price`; and for every booking view, every answer and every
outcome of the request, giving the view another `status` changes none of the effects of
`handleUpdatePrice`. -/
theorem handleUpdatePrice_ignores_status :
    (handleUpdatePrice clientProps (fun _ => some "75") "2025-01-01T10:00:00.000Z" .rejected
        (clientChat [("status", .str "Cancelled"), ("price", .str "50")])).2 =
      [.prompt "Enter a new price:" (.str "50"),
       .put "/bookings/42/price" [("price", .str "75")] "Bearer t0k",
       .consoleError "Error updating price:"] ∧
    (∀ (p : Props) (promptReply : JSVal → Option String) (now : String) (out : PutOutcome)
        (s : ChatState) (bd : JSObj) (status : JSVal),
      (handleUpdatePrice p promptReply now out
          { s with bookingDetails := .obj (JSObj.set bd "status" status) }).2 =
        (handleUpdatePrice p promptReply now out { s with bookingDetails := .obj bd }).2) := by
  refine ⟨by decide, ?_⟩
  intro p promptReply now out s bd status
  have hg : JSObj.get (JSObj.set bd "status" status) "price" = JSObj.get bd "price" :=
    JSObj.get_set_ne bd "status" "price" status (by decide)
  simp only [handleUpdatePrice, Value.prop, hg]
  split <;> cases out <;> rfl

theorem strictEq_str_iff (v : JSVal) (a : String) : strictEq v (.str a) = true ↔ v = .str a := by
  cases v <;> simp [strictEq]

theorem roomEvents_append (a b : List SocketCall) :
    roomEvents (a ++ b) = roomEvents a ++ roomEvents b := by
  induction a with
  | nil => rfl
  | cons c rest ih =>
    cases c
    case emit event payload =>
      by_cases h1 : event = "join_room"
      · simp [roomEvents, h1, ih]
      · by_cases h2 : event = "leave_room"
        · simp [roomEvents, h2, ih]
        · simp [roomEvents, h1, h2, ih]
    all_goals simpa [roomEvents] using ih

theorem roomEvents_runPending (pending : Option EffectScope) :
    roomEvents (runPending pending) =
      match pending with
      | some scope => [.leave (roomPayload scope.props)]
      | none => [] := by
  cases pending <;> simp [runPending, socketCleanup, roomEvents]

theorem socketEffect_idle (p : Props) (s : ChatState) (connected : Bool)
    (h : s.loading = true ∨ s.bookingDetails.truthy = false) :
    socketEffect p s connected = ([], none) := by
  rcases h with h | h <;> simp [socketEffect, h]

theorem socketEffect_joined (p : Props) (s : ChatState) (connected : Bool)
    (hl : s.loading = false) (hb : s.bookingDetails.truthy = true) :
    (socketEffect p s connected).2 = some { props := p, userId := s.userId } ∧
    roomEvents (socketEffect p s connected).1 = [.join (roomPayload p)] ∧
    listenersAfter [] (socketEffect p s connected).1 =
      registered { props := p, userId := s.userId } := by
  cases connected <;>
    simp [socketEffect, hl, hb, roomEvents, listenersAfter, applyCall, registered]

theorem paired_lifecycleRun (evs : List Lifecycle) (pending : Option EffectScope) :
    paired (pending.map (fun scope => roomPayload scope.props))
      (roomEvents (lifecycleRun pending evs).2) = true := by
  induction evs generalizing pending with
  | nil => cases pending <;> simp [lifecycleRun, roomEvents, paired]
  | cons ev evs ih =>
    simp only [lifecycleRun, roomEvents_append]
    cases ev with
    | unmount =>
      have := ih none
      cases pending with
      | none => simpa [lifecycleStep, runPending, roomEvents] using this
      | some scope =>
        simpa [lifecycleStep, runPending, socketCleanup, roomEvents, paired] using this
    | commit p s connected =>
      by_cases hj : s.loading = false ∧ s.bookingDetails.truthy = true
      · obtain ⟨h1, h2, _⟩ := socketEffect_joined p s connected hj.1 hj.2
        have := ih (some { props := p, userId := s.userId })
        cases pending with
        | none =>
          simpa [lifecycleStep, runPending, roomEvents_append, h1, h2, paired] using this
        | some scope =>
          simpa [lifecycleStep, runPending, socketCleanup, roomEvents_append, roomEvents,
            h1, h2, paired] using this
      · have hidle : socketEffect p s connected = ([], none) := by
          apply socketEffect_idle
          by_cases hl : s.loading = true
          · exact Or.inl hl
          · right
            simp only [Bool.not_eq_true] at hl
            simpa [hl] using hj
        have := ih none
        cases pending with
        | none => simpa [lifecycleStep, runPending, hidle, roomEvents] using this
        | some scope =>
          simpa [lifecycleStep, runPending, socketCleanup, hidle, roomEvents, paired] using this

theorem shape_of_paired (l : List RoomEvent) :
    ∀ o : Option Value, paired o l = true →
      match o with
      | none => ∃ (xs : List Value) (last : Option Value), l = completedRuns xs ++ openRun last
      | some x => l = [] ∨ ∃ (xs : List Value) (last : Option Value),
          l = .leave x :: (completedRuns xs ++ openRun last) := by
  induction l with
  | nil =>
    intro o _
    cases o with
    | none => exact ⟨[], none, rfl⟩
    | some x => exact Or.inl rfl
  | cons e rest ih =>
    intro o h
    cases o with
    | none =>
      cases e with
      | leave y => simp [paired] at h
      | join y =>
        simp only [paired] at h
        rcases ih (some y) h with hnil | ⟨xs, last, hrest⟩
        · exact ⟨[], some y, by simp [hnil, completedRuns, openRun]⟩
        · exact ⟨y :: xs, last, by simp [hrest, completedRuns]⟩
    | some x =>
      cases e with
      | join y => simp [paired] at h
      | leave y =>
        simp only [paired, Bool.and_eq_true, beq_iff_eq] at h
        obtain ⟨hxy, hrest⟩ := h
        obtain ⟨xs, last, hr⟩ := ih none hrest
        exact Or.inr ⟨xs, last, by simp [hxy, hr]⟩

theorem balance_of_paired (l : List RoomEvent) :
    ∀ (o : Option Value) (n : Nat), paired o l = true →
      countJoins (l.take n) + (if o.isSome then 1 else 0) = countLeaves (l.take n) ∨
      countJoins (l.take n) + (if o.isSome then 1 else 0) = countLeaves (l.take n) + 1 := by
  induction l with
  | nil =>
    intro o n _
    cases o <;> simp [countJoins, countLeaves]
  | cons e rest ih =>
    intro o n h
    cases n with
    | zero => cases o <;> simp [countJoins, countLeaves]
    | succ n =>
      cases o with
      | none =>
        cases e with
        | leave y => simp [paired] at h
        | join y =>
          simp only [paired] at h
          have := ih (some y) n h
          simp [countJoins, countLeaves] at this ⊢
          omega
      | some x =>
        cases e with
        | join y => simp [paired] at h
        | leave y =>
          simp only [paired, Bool.and_eq_true, beq_iff_eq] at h
          have := ih none n h.2
          simp [countJoins, countLeaves] at this ⊢
          omega

theorem listenersAfter_append (t : Listeners) (a b : List SocketCall) :
    listenersAfter t (a ++ b) = listenersAfter (listenersAfter t a) b := by
  simp [listenersAfter, List.foldl_append]

theorem listenersAfter_runPending (pending : Option EffectScope) :
    listenersAfter (tableOf pending) (runPending pending) = [] := by
  cases pending with
  | none => rfl
  | some scope =>
    simp [tableOf, runPending, socketCleanup, listenersAfter, applyCall, registered,
      List.filter]

theorem listenersAfter_step (pending : Option EffectScope) (ev : Lifecycle) :
    listenersAfter (tableOf pending) (lifecycleStep pending ev).2 =
      tableOf (lifecycleStep pending ev).1 := by
  cases ev with
  | unmount => simpa [lifecycleStep, tableOf] using listenersAfter_runPending pending
  | commit p s connected =>
    simp only [lifecycleStep, listenersAfter_append, listenersAfter_runPending]
    by_cases hj : s.loading = false ∧ s.bookingDetails.truthy = true
    · obtain ⟨h1, _, h3⟩ := socketEffect_joined p s connected hj.1 hj.2
      rw [h3, h1, tableOf]
    · have hidle : socketEffect p s connected = ([], none) := by
        apply socketEffect_idle
        by_cases hl : s.loading = true
        · exact Or.inl hl
        · right
          simp only [Bool.not_eq_true] at hl
          simpa [hl] using hj
      simp [hidle, listenersAfter, tableOf]

theorem listenersAfter_lifecycleRun (evs : List Lifecycle) (pending : Option EffectScope) :
    listenersAfter (tableOf pending) (lifecycleRun pending evs).2 =
      tableOf (lifecycleRun pending evs).1 := by
  induction evs generalizing pending with
  | nil => simp [lifecycleRun, listenersAfter]
  | cons ev evs ih =>
    simp only [lifecycleRun, listenersAfter_append, listenersAfter_step, ih]

theorem lifecycleRun_snoc (evs : List Lifecycle) (ev : Lifecycle) (pending : Option EffectScope) :
    (lifecycleRun pending (evs ++ [ev])).1 =
      (lifecycleStep (lifecycleRun pending evs).1 ev).1 := by
  induction evs generalizing pending with
  | nil => simp [lifecycleRun]
  | cons e evs ih => simp [lifecycleRun, ih]

theorem handlersFor_tableOf_le (pending : Option EffectScope) (event : String) :
    (handlersFor (tableOf pending) event).length ≤ 1 := by
  cases pending with
  | none => simp [tableOf, handlersFor]
  | some scope =>
    by_cases h1 : event = "load_messages"
    · subst h1; simp [tableOf, handlersFor, registered, List.filter]
    · by_cases h2 : event = "receive_message"
      · subst h2; simp [tableOf, handlersFor, registered, List.filter]
      · by_cases h3 : event = "booking_updated"
        · subst h3; simp [tableOf, handlersFor, registered, List.filter]
        · have e1 : ("load_messages" == event) = false := by
            simpa using fun h => h1 h.symm
          have e2 : ("receive_message" == event) = false := by
            simpa using fun h => h2 h.symm
          have e3 : ("booking_updated" == event) = false := by
            simpa using fun h => h3 h.symm
          simp [tableOf, handlersFor, registered, List.filter, e1, e2, e3]

theorem deliver_receive_tableOf (pending : Option EffectScope) (data : JSObj) (s : ChatState) :
    (deliver (tableOf pending) (.receiveMessage data) s).messages = s.messages ∨
    (deliver (tableOf pending) (.receiveMessage data) s).messages = s.messages ++ [data] := by
  cases pending with
  | none => left; simp [tableOf, deliver, handlersFor]
  | some scope =>
    by_cases he : isEcho scope.props scope.userId data = true
    · left
      simp [tableOf, deliver, handlersFor, registered, List.filter, Incoming.event,
        Handler.call, he]
    · right
      simp [tableOf, deliver, handlersFor, registered, List.filter, Incoming.event,
        Handler.call, he]

/-- C11 as stated fails: while the page is loading, a booking view whose status is
`"Confirmed"`, seen by the role `"user"`, does not render "Proceed to Payment" (the
component returns the loading screen first). -/
theorem payment_not_rendered_while_loading :
    JSObj.get [("status", .str "Confirmed"), ("price", .str "50")] "status" = .str "Confirmed" ∧
    clientProps.role = .str "user" ∧
    (paymentButton clientProps
      { clientChat [("status", .str "Confirmed"), ("price", .str "50")] with
          loading := true }).rendered = false := by
  decide

/-- C11 as amended: for every booking view and every role, once loading is over
"Proceed to Payment" is rendered exactly when the status is `"Confirmed"` and the role is
`"user"`; in every state it is rendered only then; and it is never rendered together with
the negotiation controls. -/
theorem payment_rendered_iff_confirmed_client (p : Props) (s : ChatState) (bd : JSObj)
    (hs : s.bookingDetails = .obj bd) :
    (s.loading = false →
      ((paymentButton p s).rendered = true ↔
        (bd.get "status" = .str "Confirmed" ∧ p.role = .str "user"))) ∧
    ((paymentButton p s).rendered = true →
      (bd.get "status" = .str "Confirmed" ∧ p.role = .str "user")) ∧
    ¬ ((paymentButton p s).rendered = true ∧ (priceInput s).rendered = true) ∧
    ¬ ((paymentButton p s).rendered = true ∧ (proposeButton s).rendered = true) ∧
    ¬ ((paymentButton p s).rendered = true ∧ (agreeButton s).rendered = true) := by
  have honly : (paymentButton p s).rendered = true →
      (bd.get "status" = .str "Confirmed" ∧ p.role = .str "user") := by
    intro h
    simp only [paymentButton, hs, Value.prop, Bool.and_eq_true, strictEq_str_iff] at h
    exact h.2
  have hexcl : ¬ ((paymentButton p s).rendered = true ∧ (negotiationControl s).rendered = true) := by
    rintro ⟨h1, h2⟩
    have hst := (honly h1).1
    simp [negotiationControl, negotiationOpen, hs, Value.prop, hst, includes, sameValueZero,
      strictEq] at h2
  refine ⟨?_, honly, hexcl, hexcl, hexcl⟩
  intro hl
  constructor
  · exact honly
  · rintro ⟨h1, h2⟩
    simp [paymentButton, panelRendered, hs, hl, Value.prop, Value.truthy, h1, h2, strictEq]

/-- Witness for C11 as amended: a loaded, confirmed booking seen by the client. -/
theorem payment_rendered_iff_confirmed_client_witness :
    (paymentButton clientProps
      (clientChat [("status", .str "Confirmed"), ("price", .str "50")])).rendered = true :=
  ((payment_rendered_iff_confirmed_client clientProps
      (clientChat [("status", .str "Confirmed"), ("price", .str "50")])
      [("status", .str "Confirmed"), ("price", .str "50")] rfl).1 rfl).2
    ⟨by decide, by decide⟩

/-- C12: over every sequence of commits and unmounts of the component, the room events the
socket effect emits are a `join_room`, then the `leave_room` of the same payload, then a
`join_room`, and so on, possibly ending on a `join_room`; in every prefix the joins are as
many as the leaves or one more. A run with `loading` true or with no booking makes no call
at all and returns no cleanup; a run that joins emits `join_room` with
`{ bookingId: parseInt(bookingId), role }` and its cleanup emits `leave_room` with the same
payload. -/
theorem room_events_alternate (evs : List Lifecycle) :
    (∃ (xs : List Value) (last : Option Value),
      roomEvents (lifecycleRun none evs).2 = completedRuns xs ++ openRun last) ∧
    (∀ n : Nat,
      countJoins ((roomEvents (lifecycleRun none evs).2).take n) =
          countLeaves ((roomEvents (lifecycleRun none evs).2).take n) ∨
      countJoins ((roomEvents (lifecycleRun none evs).2).take n) =
          countLeaves ((roomEvents (lifecycleRun none evs).2).take n) + 1) ∧
    (∀ (p : Props) (s : ChatState) (connected : Bool),
      (s.loading = true ∨ s.bookingDetails.truthy = false) →
        socketEffect p s connected = ([], none)) ∧
    (∀ (p : Props) (s : ChatState) (connected : Bool),
      s.loading = false → s.bookingDetails.truthy = true →
        roomEvents (socketEffect p s connected).1 =
          [.join (.obj [("bookingId", .num (parseInt p.bookingId)), ("role", p.role)])] ∧
        ∃ scope, (socketEffect p s connected).2 = some scope ∧
          roomEvents (socketCleanup scope) =
            [.leave (.obj [("bookingId", .num (parseInt p.bookingId)), ("role", p.role)])]) := by
  have hp := paired_lifecycleRun evs none
  refine ⟨shape_of_paired _ none hp, ?_, socketEffect_idle, ?_⟩
  · intro n
    simpa using balance_of_paired _ none n hp
  · intro p s connected hl hb
    obtain ⟨h1, h2, _⟩ := socketEffect_joined p s connected hl hb
    exact ⟨h2, _, h1, by simp [socketCleanup, roomEvents, roomPayload]⟩

/-- Witness for C12: the first render (still loading) emits nothing; the loaded chat of
client 7 on booking 42 joins with `{ bookingId: 42, role: "user" }`. -/
theorem room_events_alternate_witness :
    socketEffect clientProps (initialState storageClient) false = ([], none) ∧
    roomEvents (socketEffect clientProps (clientChat [("status", .str "Pending")]) false).1 =
      [.join (.obj [("bookingId", .num (parseInt clientProps.bookingId)),
        ("role", clientProps.role)])] :=
  ⟨(room_events_alternate sampleLifecycle).2.2.1 clientProps (initialState storageClient) false
      (Or.inl rfl),
   ((room_events_alternate sampleLifecycle).2.2.2 clientProps
      (clientChat [("status", .str "Pending")]) false rfl rfl).1⟩

/-- C13: with the listener table of the shared socket as state, starting empty, after every
sequence of commits and unmounts every event has at most one registered handler. After a
commit whose run joined, each of `load_messages`, `receive_message` and `booking_updated`
has exactly one; after an unmount, and after a commit whose run did not join, no event has
any. Hence one incoming `receive_message` leaves the message list as it was or appends that
one message. -/
theorem listeners_do_not_leak (evs : List Lifecycle) :
    (∀ event : String,
      (handlersFor (listenersAfter [] (lifecycleRun none evs).2) event).length ≤ 1) ∧
    (∀ (p : Props) (s : ChatState) (connected : Bool),
      s.loading = false → s.bookingDetails.truthy = true →
        ∀ event ∈ ["load_messages", "receive_message", "booking_updated"],
          (handlersFor (listenersAfter []
            (lifecycleRun none (evs ++ [.commit p s connected])).2) event).length = 1) ∧
    (∀ (p : Props) (s : ChatState) (connected : Bool),
      (s.loading = true ∨ s.bookingDetails.truthy = false) →
        listenersAfter [] (lifecycleRun none (evs ++ [.commit p s connected])).2 = []) ∧
    listenersAfter [] (lifecycleRun none (evs ++ [.unmount])).2 = [] ∧
    (∀ (data : JSObj) (s : ChatState),
      (deliver (listenersAfter [] (lifecycleRun none evs).2) (.receiveMessage data) s).messages =
          s.messages ∨
      (deliver (listenersAfter [] (lifecycleRun none evs).2) (.receiveMessage data) s).messages =
          s.messages ++ [data]) := by
  have htab : ∀ l : List Lifecycle,
      listenersAfter [] (lifecycleRun none l).2 = tableOf (lifecycleRun none l).1 :=
    fun l => listenersAfter_lifecycleRun l none
  refine ⟨?_, ?_, ?_, ?_, ?_⟩
  · intro event
    rw [htab]
    exact handlersFor_tableOf_le _ event
  · intro p s connected hl hb event hev
    obtain ⟨h1, _, _⟩ := socketEffect_joined p s connected hl hb
    rw [htab, lifecycleRun_snoc]
    simp only [lifecycleStep, h1, tableOf]
    simp only [List.mem_cons, List.mem_singleton, List.not_mem_nil, or_false] at hev
    rcases hev with rfl | rfl | rfl <;> simp [handlersFor, registered, List.filter]
  · intro p s connected h
    rw [htab, lifecycleRun_snoc]
    simp [lifecycleStep, socketEffect_idle p s connected h, tableOf]
  · rw [htab, lifecycleRun_snoc]
    simp [lifecycleStep, tableOf]
  · intro data s
    rw [htab]
    exact deliver_receive_tableOf _ data s

/-- Witness for C13: after a sample history of the page, one more commit of the loaded chat
leaves exactly one `receive_message` handler. -/
theorem listeners_do_not_leak_witness :
    (handlersFor (listenersAfter []
      (lifecycleRun none (sampleLifecycle ++
        [.commit clientProps (clientChat [("status", .str "Pending")]) true])).2)
      "receive_message").length = 1 :=
  (listeners_do_not_leak sampleLifecycle).2.1 clientProps
    (clientChat [("status", .str "Pending")]) true rfl rfl "receive_message" (by decide)

end TaskPal
